import Mathlib

/-!
# A shallow embedding of the `debug` logging library (`src/debug.c`, `src/debug.h`)

A C string is represented by the list of its bytes before the terminating NUL, so `strlen` is
`List.length`.  The two process-wide structures `debug_file` and `debug_colors`, the standard
output stream, the table of open descriptors and the contents of the files live in one explicit
`World` that every operation threads through.  The outcomes of `open`, `malloc` and `close`, which
the program cannot control, are read from scripts stored in the `World` (a script that has run
out answers failure), so a statement quantified over every `World` covers every behaviour of the
environment.

`debug`, `debug_output` and `debug_write` call each other (the self-diagnostic warnings); they are
embedded with a fuel argument that bounds the depth of the call stack.

The size of the rendered text is the `int` of debug.c line 102: `vsnprintf` returns `-1` for a
text longer than `INT_MAX` bytes, and `debug` then takes the fixed buffer.
-/

namespace Debug

/-! ## Constants of `debug.h` and `debug.c` -/

/-- The enumerator `DEBUG_INFO = 0` of `debug_t`. -/
def DEBUG_INFO : Int := 0
/-- The enumerator `DEBUG_WARN = 1` of `debug_t`. -/
def DEBUG_WARN : Int := 1
/-- The enumerator `DEBUG_ERROR = 2` of `debug_t`. -/
def DEBUG_ERROR : Int := 2
/-- The enumerator `DEBUG_FATAL = 3` of `debug_t`. -/
def DEBUG_FATAL : Int := 3

/-- The enumerator `DEBUG_COLOR_BLACK` of `debug_color_t`. -/
def DEBUG_COLOR_BLACK : Int := 0
/-- The enumerator `DEBUG_COLOR_RED` of `debug_color_t`. -/
def DEBUG_COLOR_RED : Int := 1
/-- The enumerator `DEBUG_COLOR_GREEN` of `debug_color_t`. -/
def DEBUG_COLOR_GREEN : Int := 2
/-- The enumerator `DEBUG_COLOR_YELLOW` of `debug_color_t`. -/
def DEBUG_COLOR_YELLOW : Int := 3
/-- The enumerator `DEBUG_COLOR_BLUE` of `debug_color_t`. -/
def DEBUG_COLOR_BLUE : Int := 4
/-- The enumerator `DEBUG_COLOR_PURPLE` of `debug_color_t`. -/
def DEBUG_COLOR_PURPLE : Int := 5
/-- The enumerator `DEBUG_COLOR_CYAN` of `debug_color_t`. -/
def DEBUG_COLOR_CYAN : Int := 6
/-- The enumerator `DEBUG_COLOR_WHITE` of `debug_color_t`. -/
def DEBUG_COLOR_WHITE : Int := 7

/-- The macro `DEBUG_MESSAGE_SIZE` (debug.c line 16). -/
def DEBUG_MESSAGE_SIZE : Nat := 2048

/-- The macro `DEBUG_ALLOW_DYNAMIC_ALLOCATION` (debug.c line 17).  The functions below take the
flag as the argument `dyn`, so that both build configurations can be examined. -/
def DEBUG_ALLOW_DYNAMIC_ALLOCATION : Bool := true

/-! ## The data model -/

/-- The struct `debug_file_t` (debug.c lines 67-72). -/
structure debug_file_t where
  enabled : Bool
  path : List Char
  descriptor : Int

/-- The struct `debug_colors_t` (debug.c lines 80-87); a `debug_color_t` is a C enum, hence an
integer that may lie outside the eight enumerators. -/
structure debug_colors_t where
  info : Int
  warn : Int
  error : Int
  fatal : Int
  enabled : Bool

/-- The state of the process and of its environment. -/
structure World where
  /-- the global `debug_file` -/
  debug_file : debug_file_t
  /-- the global `debug_colors` -/
  debug_colors : debug_colors_t
  /-- every byte written to standard output so far -/
  stdout : List Char
  /-- the open descriptors, each with the path it was opened on -/
  fds : List (Int × List Char)
  /-- the contents of the files, by path (a file that does not exist has no bytes) -/
  fs : List Char → List Char
  /-- the outcomes of the coming calls of `open`: `some fd` is a success returning `fd` -/
  open_script : List (Option Nat)
  /-- the outcomes of the coming calls of `malloc`: `true` is a success -/
  malloc_script : List Bool
  /-- the outcomes of the coming calls of `close` on an open descriptor: `true` is a success -/
  close_script : List Bool

/-- The initialiser of the global `debug_file` (debug.c lines 74-78). -/
def debug_file_init : debug_file_t :=
  { enabled := false, path := "/var/log/NOT_SPECIFIED.log".toList, descriptor := -1 }

/-- The initialiser of the global `debug_colors` (debug.c lines 89-95). -/
def debug_colors_init : debug_colors_t :=
  { info := DEBUG_COLOR_GREEN, warn := DEBUG_COLOR_YELLOW, error := DEBUG_COLOR_RED,
    fatal := DEBUG_COLOR_CYAN, enabled := true }

/-- The state at process start: the globals hold their initialisers, nothing has been printed, the
three standard descriptors are open, and the environment will answer as the scripts say. -/
def World.initial (fs : List Char → List Char) (opens : List (Option Nat))
    (mallocs closes : List Bool) : World :=
  { debug_file := debug_file_init, debug_colors := debug_colors_init, stdout := [],
    fds := [(0, "/dev/stdin".toList), (1, "/dev/stdout".toList), (2, "/dev/stderr".toList)],
    fs := fs, open_script := opens, malloc_script := mallocs, close_script := closes }

/-- How a call ends. -/
inductive Result where
  /-- the call returned `ret`, leaving the state `w` -/
  | done (ret : Bool) (w : World)
  /-- the call reached `free` on a pointer that `malloc` did not return (undefined behaviour);
  `w` is the state at that point -/
  | invalid_free (w : World)
  /-- the call stack grew deeper than the fuel allowed -/
  | out_of_fuel

/-- The state in which a call ended, when it did. -/
def Result.final : Result → Option World
  | .done _ w => some w
  | .invalid_free w => some w
  | .out_of_fuel => none

/-- The value a call returned, when it returned. -/
def Result.ret : Result → Option Bool
  | .done b _ => some b
  | _ => none

/-! ## The C library and the operating system -/

/-- A variadic argument of a formatting call. -/
inductive printf_arg where
  | int (v : Int)
  | str (s : List Char)

/-- The decimal digits `%d` prints. -/
def decimal (v : Int) : List Char :=
  if v < 0 then '-' :: Nat.toDigits 10 v.natAbs else Nat.toDigits 10 v.natAbs

/-- The text a format template renders to, for the conversions `%d`, `%s` and `%%`.  A conversion
whose argument is missing or of the wrong type is undefined in C; it is left in place here. -/
def vformat : List Char → List printf_arg → List Char
  | [], _ => []
  | c :: rest, args =>
    if c = '%' then
      match rest, args with
      | 'd' :: rest1, printf_arg.int v :: args1 => decimal v ++ vformat rest1 args1
      | 's' :: rest1, printf_arg.str s :: args1 => s ++ vformat rest1 args1
      | '%' :: rest1, args1 => '%' :: vformat rest1 args1
      | rest1, args1 => c :: vformat rest1 args1
    else c :: vformat rest args

/-- The greatest value of an `int` (`INT_MAX` of `<limits.h>`, for an `int` of 32 bits). -/
def INT_MAX : Int := 2147483647

/-- The sum of two `int`s, wrapped to 32 bits in two's complement where C leaves the overflow
undefined. -/
def int_add (a b : Int) : Int := (a + b + 2147483648) % 4294967296 - 2147483648

/-- The `int` that `vsnprintf` returns: the length of the whole rendered text, whatever the size
of the buffer, or `-1` when that length is greater than `INT_MAX`. -/
def vsnprintf_length (format : List Char) (args : List printf_arg) : Int :=
  if ((vformat format args).length : Int) ≤ INT_MAX then ((vformat format args).length : Int)
  else -1

/-- The local variable `formatted_message_size` of `debug`, an `int` (debug.c line 102): the value
`vsnprintf` returned, plus one.  For a text of more than `INT_MAX` bytes it is `0`; for a text of
exactly `INT_MAX` bytes the sum overflows and is taken wrapped. -/
def formatted_message_size (message : List Char) (args : List printf_arg) : Int :=
  int_add (vsnprintf_length message args) 1

/-- The string `vsnprintf(buffer, size, format, args)` leaves in `buffer`: the first `size - 1`
bytes of the rendered text, then the terminator (also when the value returned is `-1`). -/
def vsnprintf (size : Nat) (format : List Char) (args : List printf_arg) : List Char :=
  (vformat format args).take (size - 1)

/-- The call `printf(format, args)`: append the rendered text to standard output. -/
def printf (format : List Char) (args : List printf_arg) (w : World) : World :=
  { w with stdout := w.stdout ++ vformat format args }

/-- The call `malloc(size)`, the `int` size converted to `size_t`: whether it returned a block,
and the state afterwards. -/
def malloc (_size : Nat) (w : World) : Bool × World :=
  match w.malloc_script with
  | [] => (false, w)
  | ok :: rest => (ok, { w with malloc_script := rest })

/-- The call `open(path, O_CREAT | O_WRONLY | O_APPEND, 0644)`: the descriptor returned (`-1` on
failure) and the state afterwards. -/
def sys_open (path : List Char) (w : World) : Int × World :=
  match w.open_script with
  | [] => (-1, w)
  | none :: rest => (-1, { w with open_script := rest })
  | some fd :: rest =>
    ((fd : Int), { w with fds := ((fd : Int), path) :: w.fds, open_script := rest })

/-- The call `write(fd, buf, count)` on a descriptor opened for appending: the first `count` bytes
of `buf` are appended to the file; on a descriptor that is not open nothing is written. -/
def sys_write (fd : Int) (buf : List Char) (count : Nat) (w : World) : World :=
  match w.fds.lookup fd with
  | none => w
  | some p => { w with fs := fun q => if q = p then w.fs q ++ buf.take count else w.fs q }

/-- The call `close(fd)`: the value returned and the state afterwards.  On a descriptor that is
not open it fails with `-1`; otherwise the descriptor is released, and the script says whether
`0` or `-1` is returned. -/
def sys_close (fd : Int) (w : World) : Int × World :=
  match w.fds.lookup fd with
  | none => (-1, w)
  | some _ =>
    match w.close_script with
    | [] => (-1, { w with fds := w.fds.filter (fun e => e.1 != fd) })
    | ok :: rest =>
      (if ok then 0 else -1,
        { w with fds := w.fds.filter (fun e => e.1 != fd), close_script := rest })

/-- The call `strncpy(dest, src, n)` seen as the string left in `dest` when `src` is shorter than
`n`; otherwise the first `n` bytes. -/
def strncpy (src : List Char) (n : Nat) : List Char := src.take n

/-! ## The colour resolver (debug.c lines 266-380) -/

/-- The function `debug_category_text_colored_info` (debug.c lines 266-293). -/
def debug_category_text_colored_info (debug_colors : debug_colors_t) : List Char :=
  if debug_colors.enabled then
    if debug_colors.info = DEBUG_COLOR_BLACK then "[\x1b[0;30mINFO\x1b[0m]".toList
    else if debug_colors.info = DEBUG_COLOR_RED then "[\x1b[0;31mINFO\x1b[0m]".toList
    else if debug_colors.info = DEBUG_COLOR_GREEN then "[\x1b[0;32mINFO\x1b[0m]".toList
    else if debug_colors.info = DEBUG_COLOR_YELLOW then "[\x1b[0;33mINFO\x1b[0m]".toList
    else if debug_colors.info = DEBUG_COLOR_BLUE then "[\x1b[0;34mINFO\x1b[0m]".toList
    else if debug_colors.info = DEBUG_COLOR_PURPLE then "[\x1b[0;35mINFO\x1b[0m]".toList
    else if debug_colors.info = DEBUG_COLOR_CYAN then "[\x1b[0;36mINFO\x1b[0m]".toList
    else if debug_colors.info = DEBUG_COLOR_WHITE then "[\x1b[0;37mINFO\x1b[0m]".toList
    else "[INFO]".toList
  else "[INFO]".toList

/-- The function `debug_category_text_colored_warn` (debug.c lines 295-322). -/
def debug_category_text_colored_warn (debug_colors : debug_colors_t) : List Char :=
  if debug_colors.enabled then
    if debug_colors.warn = DEBUG_COLOR_BLACK then "[\x1b[0;30mWARNING\x1b[0m]".toList
    else if debug_colors.warn = DEBUG_COLOR_RED then "[\x1b[0;31mWARNING\x1b[0m]".toList
    else if debug_colors.warn = DEBUG_COLOR_GREEN then "[\x1b[0;32mWARNING\x1b[0m]".toList
    else if debug_colors.warn = DEBUG_COLOR_YELLOW then "[\x1b[0;33mWARNING\x1b[0m]".toList
    else if debug_colors.warn = DEBUG_COLOR_BLUE then "[\x1b[0;34mWARNING\x1b[0m]".toList
    else if debug_colors.warn = DEBUG_COLOR_PURPLE then "[\x1b[0;35mWARNING\x1b[0m]".toList
    else if debug_colors.warn = DEBUG_COLOR_CYAN then "[\x1b[0;36mWARNING\x1b[0m]".toList
    else if debug_colors.warn = DEBUG_COLOR_WHITE then "[\x1b[0;37mWARNING\x1b[0m]".toList
    else "[WARNING]".toList
  else "[WARNING]".toList

/-- The function `debug_category_text_colored_error` (debug.c lines 324-351). -/
def debug_category_text_colored_error (debug_colors : debug_colors_t) : List Char :=
  if debug_colors.enabled then
    if debug_colors.error = DEBUG_COLOR_BLACK then "[\x1b[0;30mERROR\x1b[0m]".toList
    else if debug_colors.error = DEBUG_COLOR_RED then "[\x1b[0;31mERROR\x1b[0m]".toList
    else if debug_colors.error = DEBUG_COLOR_GREEN then "[\x1b[0;32mERROR\x1b[0m]".toList
    else if debug_colors.error = DEBUG_COLOR_YELLOW then "[\x1b[0;33mERROR\x1b[0m]".toList
    else if debug_colors.error = DEBUG_COLOR_BLUE then "[\x1b[0;34mERROR\x1b[0m]".toList
    else if debug_colors.error = DEBUG_COLOR_PURPLE then "[\x1b[0;35mERROR\x1b[0m]".toList
    else if debug_colors.error = DEBUG_COLOR_CYAN then "[\x1b[0;36mERROR\x1b[0m]".toList
    else if debug_colors.error = DEBUG_COLOR_WHITE then "[\x1b[0;37mERROR\x1b[0m]".toList
    else "[ERROR]".toList
  else "[ERROR]".toList

/-- The function `debug_category_text_colored_fatal` (debug.c lines 353-380). -/
def debug_category_text_colored_fatal (debug_colors : debug_colors_t) : List Char :=
  if debug_colors.enabled then
    if debug_colors.fatal = DEBUG_COLOR_BLACK then "[\x1b[0;30mFATAL\x1b[0m]".toList
    else if debug_colors.fatal = DEBUG_COLOR_RED then "[\x1b[0;31mFATAL\x1b[0m]".toList
    else if debug_colors.fatal = DEBUG_COLOR_GREEN then "[\x1b[0;32mFATAL\x1b[0m]".toList
    else if debug_colors.fatal = DEBUG_COLOR_YELLOW then "[\x1b[0;33mFATAL\x1b[0m]".toList
    else if debug_colors.fatal = DEBUG_COLOR_BLUE then "[\x1b[0;34mFATAL\x1b[0m]".toList
    else if debug_colors.fatal = DEBUG_COLOR_PURPLE then "[\x1b[0;35mFATAL\x1b[0m]".toList
    else if debug_colors.fatal = DEBUG_COLOR_CYAN then "[\x1b[0;36mFATAL\x1b[0m]".toList
    else if debug_colors.fatal = DEBUG_COLOR_WHITE then "[\x1b[0;37mFATAL\x1b[0m]".toList
    else "[FATAL]".toList
  else "[FATAL]".toList

/-! ## The texts of the self-diagnostic messages -/

/-- The text passed at debug.c lines 155, 222 and 257. -/
def msg_invalid_category : List Char :=
  "Internal debug error: Invalid debug category specified for operation".toList

/-- The text passed at debug.c line 112. -/
def msg_allocation_failed : List Char :=
  "Internal debug error: Failed to allocate memory to format output".toList

/-- The text passed at debug.c line 131. -/
def msg_truncated : List Char :=
  "Internal debug error: Previous message was truncated".toList

/-- The text passed at debug.c line 178. -/
def msg_path_length : List Char :=
  "Internal debug error: Invalid debug file path length was provided".toList

/-- The text passed at debug.c line 237. -/
def msg_open_failed : List Char :=
  "Internal debug error: Failed to open debug file for writing".toList

/-! ## The terminal sink, the file sink and the dispatcher -/

/-- The function `debug_output` (debug.c lines 205-227). -/
def debug_outputF : Nat → Int → List Char → World → Result
  | 0, _, _, _ => Result.out_of_fuel
  | fuel + 1, category, message, w =>
    if category = DEBUG_INFO then
      Result.done true (printf "%s %s\n\r".toList
        [printf_arg.str (debug_category_text_colored_info w.debug_colors),
          printf_arg.str message] w)
    else if category = DEBUG_WARN then
      Result.done true (printf "%s %s\n\r".toList
        [printf_arg.str (debug_category_text_colored_warn w.debug_colors),
          printf_arg.str message] w)
    else if category = DEBUG_ERROR then
      Result.done true (printf "%s %s\n\r".toList
        [printf_arg.str (debug_category_text_colored_error w.debug_colors),
          printf_arg.str message] w)
    else if category = DEBUG_FATAL then
      Result.done true (printf "%s %s\n\r".toList
        [printf_arg.str (debug_category_text_colored_fatal w.debug_colors),
          printf_arg.str message] w)
    else
      match debug_outputF fuel DEBUG_WARN msg_invalid_category w with
      | Result.done _ w1 => Result.done false w1
      | r => r

/-- The outcome of the formatting part of `debug`. -/
inductive Formatted where
  /-- the string `message_formatted` points to, whether it lies in a block from `malloc`, and the
  state reached -/
  | ready (message_formatted : List Char) (on_heap : Bool) (w : World)
  /-- the self-warning about the failed allocation did not return -/
  | stopped (r : Result)

/-- The formatting part of `debug` (debug.c lines 99-124); `self` is the function `debug` itself,
called for the warning about a failed allocation. -/
def debug_format (self : Int → List Char → List printf_arg → World → Result) (dyn : Bool)
    (message : List Char) (args : List printf_arg) (w : World) : Formatted :=
  if formatted_message_size message args > DEBUG_MESSAGE_SIZE ∧ dyn = true then
    match malloc (formatted_message_size message args).toNat w with
    | (false, w1) =>
      match self DEBUG_WARN msg_allocation_failed [] w1 with
      | Result.done _ w2 =>
        Formatted.ready (vsnprintf DEBUG_MESSAGE_SIZE message args) false w2
      | r => Formatted.stopped r
    | (true, w1) =>
      Formatted.ready (vsnprintf (formatted_message_size message args).toNat message args)
        true w1
  else Formatted.ready (vsnprintf DEBUG_MESSAGE_SIZE message args) false w

/-- The call `free(message_formatted)` at debug.c line 133, then `return outputted`. -/
def free_then_return (on_heap : Bool) (outputted : Bool) (w : World) : Result :=
  if on_heap then Result.done outputted w else Result.invalid_free w

mutual
/-- The function `debug` (debug.c lines 97-136). -/
def debugF : Nat → Bool → Int → List Char → List printf_arg → World → Result
  | 0, _, _, _, _, _ => Result.out_of_fuel
  | fuel + 1, dyn, category, message, args, w =>
    match debug_format (fun c m a v => debugF fuel dyn c m a v) dyn message args w with
    | Formatted.stopped r => r
    | Formatted.ready message_formatted on_heap w0 =>
      match debug_outputF fuel category message_formatted w0 with
      | Result.done outputted w1 =>
        match (if w1.debug_file.enabled then
            debug_writeF fuel dyn category message_formatted w1
          else Result.done outputted w1) with
        | Result.done outputted w2 =>
          if formatted_message_size message args > DEBUG_MESSAGE_SIZE then
            if dyn = false then
              match debugF fuel dyn DEBUG_WARN msg_truncated [] w2 with
              | Result.done _ w3 => Result.done outputted w3
              | r => r
            else free_then_return on_heap outputted w2
          else Result.done outputted w2
        | r => r
      | r => r
/-- The function `debug_write` (debug.c lines 229-264). -/
def debug_writeF : Nat → Bool → Int → List Char → World → Result
  | 0, _, _, _, _ => Result.out_of_fuel
  | fuel + 1, dyn, category, message, w =>
    let w1 : World :=
      if w.debug_file.descriptor = -1 then
        let r := sys_open w.debug_file.path w
        { r.2 with debug_file := { r.2.debug_file with descriptor := r.1 } }
      else w
    if w.debug_file.descriptor = -1 ∧ w1.debug_file.descriptor = -1 then
      match debug_outputF fuel DEBUG_ERROR msg_open_failed w1 with
      | Result.done _ w2 => Result.done false w2
      | r => r
    else
      if category = DEBUG_INFO then
        Result.done true (sys_write w1.debug_file.descriptor "\n\r".toList 2
          (sys_write w1.debug_file.descriptor message message.length
            (sys_write w1.debug_file.descriptor "[INFO] \x00".toList 7 w1)))
      else if category = DEBUG_WARN then
        Result.done true (sys_write w1.debug_file.descriptor "\n\r".toList 2
          (sys_write w1.debug_file.descriptor message message.length
            (sys_write w1.debug_file.descriptor "[WARNING] \x00".toList 10 w1)))
      else if category = DEBUG_ERROR then
        Result.done true (sys_write w1.debug_file.descriptor "\n\r".toList 2
          (sys_write w1.debug_file.descriptor message message.length
            (sys_write w1.debug_file.descriptor "[ERROR] \x00".toList 8 w1)))
      else if category = DEBUG_FATAL then
        Result.done true (sys_write w1.debug_file.descriptor "\n\r".toList 2
          (sys_write w1.debug_file.descriptor message message.length
            (sys_write w1.debug_file.descriptor "[FATAL] \x00".toList 8 w1)))
      else
        match debugF fuel dyn DEBUG_WARN msg_invalid_category [] w1 with
        | Result.done _ w2 => Result.done false w2
        | r => r
end

/-! ## The public operations (debug.h) -/

/-- The function `debug_color` (debug.c lines 138-160). -/
def debug_colorF (fuel : Nat) (dyn : Bool) (category : Int) (color : Int) (w : World) : Result :=
  if category = DEBUG_INFO then
    Result.done true { w with debug_colors := { w.debug_colors with info := color } }
  else if category = DEBUG_WARN then
    Result.done true { w with debug_colors := { w.debug_colors with warn := color } }
  else if category = DEBUG_ERROR then
    Result.done true { w with debug_colors := { w.debug_colors with error := color } }
  else if category = DEBUG_FATAL then
    Result.done true { w with debug_colors := { w.debug_colors with fatal := color } }
  else
    match debugF fuel dyn DEBUG_WARN msg_invalid_category [] w with
    | Result.done _ w1 => Result.done false w1
    | r => r

/-- The function `debug_color_enable` (debug.c lines 162-166). -/
def debug_color_enable (w : World) : Result :=
  Result.done true { w with debug_colors := { w.debug_colors with enabled := true } }

/-- The function `debug_color_disable` (debug.c lines 168-172). -/
def debug_color_disable (w : World) : Result :=
  Result.done true { w with debug_colors := { w.debug_colors with enabled := false } }

/-- The function `debug_set_file` (debug.c lines 174-184); `PATH_MAX` comes from a system header
and is an argument here. -/
def debug_set_fileF (fuel : Nat) (dyn : Bool) (PATH_MAX : Nat) (path : List Char) (w : World) :
    Result :=
  if path.length ≥ PATH_MAX then
    match debugF fuel dyn DEBUG_ERROR msg_path_length [] w with
    | Result.done _ w1 => Result.done false w1
    | r => r
  else
    Result.done true { w with debug_file := { w.debug_file with path := strncpy path PATH_MAX } }

/-- The function `debug_file_enable` (debug.c lines 186-190). -/
def debug_file_enable (w : World) : Result :=
  Result.done true { w with debug_file := { w.debug_file with enabled := true } }

/-- The function `debug_file_disable` (debug.c lines 192-198). -/
def debug_file_disable (w : World) : Result :=
  let w1 : World := { w with debug_file := { w.debug_file with enabled := false } }
  if w1.debug_file.descriptor ≠ -1 then
    let r := sys_close w1.debug_file.descriptor w1
    Result.done (r.1 = 0) r.2
  else Result.done true w1

/-! ## Vocabulary of the statements -/

/-- A category is one of the four enumerators of `debug_t`. -/
def valid_category (category : Int) : Prop :=
  category = DEBUG_INFO ∨ category = DEBUG_WARN ∨ category = DEBUG_ERROR ∨ category = DEBUG_FATAL

instance valid_category_decidable (category : Int) : Decidable (valid_category category) := by
  unfold valid_category; infer_instance

/-- The label the switch of `debug_output` selects for a valid category. -/
def resolved_tag (category : Int) (c : debug_colors_t) : List Char :=
  if category = DEBUG_INFO then debug_category_text_colored_info c
  else if category = DEBUG_WARN then debug_category_text_colored_warn c
  else if category = DEBUG_ERROR then debug_category_text_colored_error c
  else debug_category_text_colored_fatal c

/-- The line `printf("%s %s\n\r", label, message)` prints. -/
def terminal_line (tag message : List Char) : List Char :=
  tag ++ ' ' :: (message ++ ['\n', '\r'])

/-- The token `debug_write` writes first for a valid category. -/
def file_token (category : Int) : List Char :=
  if category = DEBUG_INFO then "[INFO] ".toList
  else if category = DEBUG_WARN then "[WARNING] ".toList
  else if category = DEBUG_ERROR then "[ERROR] ".toList
  else "[FATAL] ".toList

/-- The bytes of one entry of the log file. -/
def file_entry (category : Int) (message : List Char) : List Char :=
  file_token category ++ (message ++ ['\n', '\r'])

/-- The state after `bytes` have been appended through the descriptor `fd`. -/
def appended (fd : Int) (bytes : List Char) (w : World) : World :=
  match w.fds.lookup fd with
  | none => w
  | some p => { w with fs := fun q => if q = p then w.fs q ++ bytes else w.fs q }

/-- The state after a successful `open` returning `fd` at debug.c line 233. -/
def opened (fd : Nat) (rest : List (Option Nat)) (w : World) : World :=
  { w with debug_file := { w.debug_file with descriptor := (fd : Int) },
           fds := ((fd : Int), w.debug_file.path) :: w.fds, open_script := rest }

/-- The state after a failed `open` at debug.c line 233 and the report of debug.c line 237. -/
def open_failed (w : World) : World :=
  { w with open_script := w.open_script.tail,
           stdout := w.stdout ++
             terminal_line (debug_category_text_colored_error w.debug_colors) msg_open_failed }

/-- A text that is empty or ends with the line terminator of the library. -/
def lines_only (out : List Char) : Prop := out = [] ∨ ∃ q, out = q ++ ['\n', '\r']

/-- What the self-diagnostics never touch: between `w` and `v` the colour configuration, the
path and the enabled flag of the file sink are the same, and standard output has only grown, by
whole lines. -/
def keeps (w v : World) : Prop :=
  v.debug_colors = w.debug_colors ∧ v.debug_file.path = w.debug_file.path ∧
    v.debug_file.enabled = w.debug_file.enabled ∧
    ∃ out, v.stdout = w.stdout ++ out ∧ lines_only out

/-- The dispatch of `debug` to the two sinks (debug.c lines 125-127). -/
def dispatch (fuel : Nat) (dyn : Bool) (category : Int) (message_formatted : List Char)
    (w : World) : Result :=
  match debug_outputF fuel category message_formatted w with
  | Result.done outputted w1 =>
    if w1.debug_file.enabled then debug_writeF fuel dyn category message_formatted w1
    else Result.done outputted w1
  | r => r

/-- The end of `debug` (debug.c lines 128-135). -/
def finish (fuel : Nat) (dyn : Bool) (message : List Char) (args : List printf_arg)
    (on_heap : Bool) (outputted : Bool) (w : World) : Result :=
  if formatted_message_size message args > DEBUG_MESSAGE_SIZE then
    if dyn = false then
      match debugF fuel dyn DEBUG_WARN msg_truncated [] w with
      | Result.done _ w3 => Result.done outputted w3
      | r => r
    else free_then_return on_heap outputted w
  else Result.done outputted w

/-- The word of a level: INFO, WARNING, ERROR or FATAL. -/
def level_word (category : Int) : List Char :=
  if category = DEBUG_INFO then "INFO".toList
  else if category = DEBUG_WARN then "WARNING".toList
  else if category = DEBUG_ERROR then "ERROR".toList
  else "FATAL".toList

/-- The plain label: the word between brackets. -/
def plain_tag (word : List Char) : List Char := '[' :: (word ++ [']'])

/-- The colour-wrapped label: `[`, the escape sequence `ESC [0;3d m` where `d` is the ordinal of
the colour, the word, the reset sequence `ESC [0m`, and `]`. -/
def colored_tag (d : Nat) (word : List Char) : List Char :=
  ['[', '\x1b', '[', '0', ';', '3', Char.ofNat (48 + d), 'm'] ++ word ++
    ['\x1b', '[', '0', 'm', ']']

/-- The label expected for a level whose colour has the ordinal `d`. -/
def expected_tag (enabled : Bool) (category : Int) (d : Nat) : List Char :=
  if enabled then colored_tag d (level_word category) else plain_tag (level_word category)

/-- One operation after another: `f` runs in the state the call `r` returned in. -/
def Result.andThen (r : Result) (f : World → Result) : Result :=
  match r with
  | Result.done _ w => f w
  | r => r

/-- The invariant of the file handle: no descriptor is held (`-1`), or the descriptor held is
open. -/
def handle_valid (w : World) : Prop :=
  w.debug_file.descriptor = -1 ∨ (w.fds.lookup w.debug_file.descriptor).isSome = true

instance handle_valid_decidable (w : World) : Decidable (handle_valid w) := by
  unfold handle_valid; infer_instance

/-- A state at process start in which the first `open`, `malloc` and `close` will succeed. -/
def world_fresh : World := World.initial (fun _ => []) [some 3] [true] [true]

/-- The state `world_fresh` after `debug_file_enable`. -/
def world_logging : World :=
  { world_fresh with debug_file := { world_fresh.debug_file with enabled := true } }

/-- Between `w` and `v` nothing but standard output and the script of `malloc` has changed: the
file sink, the colours, the open descriptors and the files are the same. -/
def quiet (w v : World) : Prop :=
  v.debug_file = w.debug_file ∧ v.debug_colors = w.debug_colors ∧ v.fds = w.fds ∧
    v.fs = w.fs ∧ v.open_script = w.open_script ∧ v.close_script = w.close_script

/-- A state at process start, file sink enabled, in which the first `open` fails and the second
returns 3. -/
def world_unwritable : World :=
  { World.initial (fun _ => []) [none, some 3] [] [] with
    debug_file := { debug_file_init with enabled := true } }

/-- The state `w` after `debug_output` has printed `message` at a valid category. -/
def printed (category : Int) (message : List Char) (w : World) : World :=
  { w with stdout :=
    (w.stdout ++ terminal_line (resolved_tag category w.debug_colors) message) }

/-- A state at process start in which `malloc` fails. -/
def world_no_memory : World := World.initial (fun _ => []) [some 3] [false] [true]

/-! ## The nesting of the self-diagnostic calls

The functions below are `debug_output`, `debug_write` and `debug` once more, each returning, next
to its result, the greatest number of self-diagnostic calls (debug.c lines 112, 131, 222, 237 and
257) that were nested in one another during the call.  The call of a sink by `debug` (lines 125
and 127) is not a self-diagnostic call and adds nothing. -/

/-- The function `debug_output` (debug.c lines 205-227), with the nesting of its
self-diagnostic calls. -/
def debug_outputD : Nat → Int → List Char → World → Result × Nat
  | 0, _, _, _ => (Result.out_of_fuel, 0)
  | fuel + 1, category, message, w =>
    if category = DEBUG_INFO then
      (Result.done true (printf "%s %s\n\r".toList
        [printf_arg.str (debug_category_text_colored_info w.debug_colors),
          printf_arg.str message] w), 0)
    else if category = DEBUG_WARN then
      (Result.done true (printf "%s %s\n\r".toList
        [printf_arg.str (debug_category_text_colored_warn w.debug_colors),
          printf_arg.str message] w), 0)
    else if category = DEBUG_ERROR then
      (Result.done true (printf "%s %s\n\r".toList
        [printf_arg.str (debug_category_text_colored_error w.debug_colors),
          printf_arg.str message] w), 0)
    else if category = DEBUG_FATAL then
      (Result.done true (printf "%s %s\n\r".toList
        [printf_arg.str (debug_category_text_colored_fatal w.debug_colors),
          printf_arg.str message] w), 0)
    else
      let inner := debug_outputD fuel DEBUG_WARN msg_invalid_category w
      (match inner.1 with
        | Result.done _ w1 => Result.done false w1
        | r => r, inner.2 + 1)

/-- The formatting part of `debug` (debug.c lines 99-124), with the nesting of its
self-diagnostic call. -/
def debug_formatD (self : Int → List Char → List printf_arg → World → Result × Nat)
    (dyn : Bool) (message : List Char) (args : List printf_arg) (w : World) :
    Formatted × Nat :=
  if formatted_message_size message args > DEBUG_MESSAGE_SIZE ∧ dyn = true then
    match malloc (formatted_message_size message args).toNat w with
    | (false, w1) =>
      let inner := self DEBUG_WARN msg_allocation_failed [] w1
      (match inner.1 with
        | Result.done _ w2 =>
          Formatted.ready (vsnprintf DEBUG_MESSAGE_SIZE message args) false w2
        | r => Formatted.stopped r, inner.2 + 1)
    | (true, w1) =>
      (Formatted.ready (vsnprintf (formatted_message_size message args).toNat message args)
        true w1, 0)
  else (Formatted.ready (vsnprintf DEBUG_MESSAGE_SIZE message args) false w, 0)

mutual
/-- The function `debug` (debug.c lines 97-136), with the nesting of its self-diagnostic
calls. -/
def debugD : Nat → Bool → Int → List Char → List printf_arg → World → Result × Nat
  | 0, _, _, _, _, _ => (Result.out_of_fuel, 0)
  | fuel + 1, dyn, category, message, args, w =>
    let f := debug_formatD (fun c m a v => debugD fuel dyn c m a v) dyn message args w
    match f.1 with
    | Formatted.stopped r => (r, f.2)
    | Formatted.ready message_formatted on_heap w0 =>
      let o := debug_outputD fuel category message_formatted w0
      match o.1 with
      | Result.done outputted w1 =>
        let s := if w1.debug_file.enabled then
            debug_writeD fuel dyn category message_formatted w1
          else (Result.done outputted w1, 0)
        match s.1 with
        | Result.done outputted w2 =>
          if formatted_message_size message args > DEBUG_MESSAGE_SIZE then
            if dyn = false then
              let t := debugD fuel dyn DEBUG_WARN msg_truncated [] w2
              (match t.1 with
                | Result.done _ w3 => Result.done outputted w3
                | r => r, max (max f.2 o.2) (max s.2 (t.2 + 1)))
            else (free_then_return on_heap outputted w2, max (max f.2 o.2) s.2)
          else (Result.done outputted w2, max (max f.2 o.2) s.2)
        | r => (r, max (max f.2 o.2) s.2)
      | r => (r, max f.2 o.2)
/-- The function `debug_write` (debug.c lines 229-264), with the nesting of its
self-diagnostic calls. -/
def debug_writeD : Nat → Bool → Int → List Char → World → Result × Nat
  | 0, _, _, _, _ => (Result.out_of_fuel, 0)
  | fuel + 1, dyn, category, message, w =>
    let w1 : World :=
      if w.debug_file.descriptor = -1 then
        let r := sys_open w.debug_file.path w
        { r.2 with debug_file := { r.2.debug_file with descriptor := r.1 } }
      else w
    if w.debug_file.descriptor = -1 ∧ w1.debug_file.descriptor = -1 then
      let inner := debug_outputD fuel DEBUG_ERROR msg_open_failed w1
      (match inner.1 with
        | Result.done _ w2 => Result.done false w2
        | r => r, inner.2 + 1)
    else
      if category = DEBUG_INFO then
        (Result.done true (sys_write w1.debug_file.descriptor "\n\r".toList 2
          (sys_write w1.debug_file.descriptor message message.length
            (sys_write w1.debug_file.descriptor "[INFO] \x00".toList 7 w1))), 0)
      else if category = DEBUG_WARN then
        (Result.done true (sys_write w1.debug_file.descriptor "\n\r".toList 2
          (sys_write w1.debug_file.descriptor message message.length
            (sys_write w1.debug_file.descriptor "[WARNING] \x00".toList 10 w1))), 0)
      else if category = DEBUG_ERROR then
        (Result.done true (sys_write w1.debug_file.descriptor "\n\r".toList 2
          (sys_write w1.debug_file.descriptor message message.length
            (sys_write w1.debug_file.descriptor "[ERROR] \x00".toList 8 w1))), 0)
      else if category = DEBUG_FATAL then
        (Result.done true (sys_write w1.debug_file.descriptor "\n\r".toList 2
          (sys_write w1.debug_file.descriptor message message.length
            (sys_write w1.debug_file.descriptor "[FATAL] \x00".toList 8 w1))), 0)
      else
        let inner := debugD fuel dyn DEBUG_WARN msg_invalid_category [] w1
        (match inner.1 with
          | Result.done _ w2 => Result.done false w2
          | r => r, inner.2 + 1)
end

/-! ## Lemmas on the sinks and the dispatcher -/

theorem formatted_message_size_eq (message : List Char) (args : List printf_arg)
    (h : (vformat message args).length < 2147483647) :
    formatted_message_size message args = ((vformat message args).length : Int) + 1 := by
  unfold formatted_message_size vsnprintf_length int_add INT_MAX
  split_ifs <;> omega

/-- A text of at most 2047 bytes fits the fixed buffer. -/
theorem formatted_message_size_fits (message : List Char) (args : List printf_arg)
    (h : (vformat message args).length ≤ 2047) :
    ¬ (formatted_message_size message args > DEBUG_MESSAGE_SIZE) := by
  rw [formatted_message_size_eq message args (by omega)]
  unfold DEBUG_MESSAGE_SIZE
  omega

/-- A longer text whose size is an `int` does not fit, and a block of that size holds it. -/
theorem formatted_message_size_long (message : List Char) (args : List printf_arg)
    (h : 2047 < (vformat message args).length)
    (hi : (vformat message args).length < 2147483647) :
    formatted_message_size message args > DEBUG_MESSAGE_SIZE ∧
      vsnprintf (formatted_message_size message args).toNat message args =
        vformat message args := by
  rw [formatted_message_size_eq message args hi]
  constructor
  · unfold DEBUG_MESSAGE_SIZE
    omega
  · unfold vsnprintf
    exact List.take_of_length_le (by omega)

/-- The size is found greater than the fixed buffer only for a text longer than 2047 bytes whose
size is an `int`. -/
theorem formatted_message_size_gt (message : List Char) (args : List printf_arg)
    (h : formatted_message_size message args > DEBUG_MESSAGE_SIZE) :
    2047 < (vformat message args).length ∧ (vformat message args).length < 2147483647 := by
  unfold formatted_message_size vsnprintf_length int_add INT_MAX DEBUG_MESSAGE_SIZE at h
  split_ifs at h <;> omega

/-- A text whose size is not an `int` is taken to fit the fixed buffer. -/
theorem formatted_message_size_overflow (message : List Char) (args : List printf_arg)
    (h : 2147483647 ≤ (vformat message args).length) :
    ¬ (formatted_message_size message args > DEBUG_MESSAGE_SIZE) :=
  fun hc => absurd (formatted_message_size_gt message args hc).2 (by omega)

theorem vformat_line (a b : List Char) :
    vformat ['%', 's', ' ', '%', 's', '\n', '\r'] [printf_arg.str a, printf_arg.str b] =
      terminal_line a b := by
  rfl

theorem debug_outputF_valid (n : Nat) (category : Int) (message : List Char) (w : World)
    (h : valid_category category) :
    debug_outputF (n + 1) category message w =
      Result.done true { w with stdout :=
        (w.stdout ++ terminal_line (resolved_tag category w.debug_colors) message) } := by
  rcases h with h | h | h | h <;> subst h <;>
    simp [debug_outputF, printf, vformat_line, resolved_tag, DEBUG_INFO, DEBUG_WARN,
      DEBUG_ERROR, DEBUG_FATAL]

theorem debug_outputF_invalid (n : Nat) (category : Int) (message : List Char) (w : World)
    (h : ¬ valid_category category) :
    debug_outputF (n + 2) category message w =
      Result.done false { w with stdout := (w.stdout ++
        terminal_line (debug_category_text_colored_warn w.debug_colors) msg_invalid_category) } := by
  have h1 : category ≠ DEBUG_INFO := fun e => h (Or.inl e)
  have h2 : category ≠ DEBUG_WARN := fun e => h (Or.inr (Or.inl e))
  have h3 : category ≠ DEBUG_ERROR := fun e => h (Or.inr (Or.inr (Or.inl e)))
  have h4 : category ≠ DEBUG_FATAL := fun e => h (Or.inr (Or.inr (Or.inr e)))
  have hw := debug_outputF_valid n DEBUG_WARN msg_invalid_category w (Or.inr (Or.inl rfl))
  rw [debug_outputF]
  simp only [h1, h2, h3, h4, if_false, hw]
  simp [resolved_tag, DEBUG_INFO, DEBUG_WARN]

theorem three_writes (fd : Int) (a b c : List Char) (w : World) :
    sys_write fd c c.length (sys_write fd b b.length (sys_write fd a a.length w)) =
      appended fd (a ++ (b ++ c)) w := by
  unfold sys_write appended
  cases h : w.fds.lookup fd with
  | none => simp [h]
  | some p =>
    simp only [h, List.take_length]
    congr 1
    funext q
    by_cases hq : q = p <;> simp [hq]

theorem debug_writeF_switch (fd : Int) (category : Int) (message : List Char) (w : World)
    (r : Result) (h : valid_category category) :
    (if category = DEBUG_INFO then
        Result.done true (sys_write fd "\n\r".toList 2
          (sys_write fd message message.length (sys_write fd "[INFO] \x00".toList 7 w)))
      else if category = DEBUG_WARN then
        Result.done true (sys_write fd "\n\r".toList 2
          (sys_write fd message message.length (sys_write fd "[WARNING] \x00".toList 10 w)))
      else if category = DEBUG_ERROR then
        Result.done true (sys_write fd "\n\r".toList 2
          (sys_write fd message message.length (sys_write fd "[ERROR] \x00".toList 8 w)))
      else if category = DEBUG_FATAL then
        Result.done true (sys_write fd "\n\r".toList 2
          (sys_write fd message message.length (sys_write fd "[FATAL] \x00".toList 8 w)))
      else r) = Result.done true (appended fd (file_entry category message) w) := by
  have e1 : sys_write fd "[INFO] \x00".toList 7 w = sys_write fd "[INFO] ".toList 7 w := rfl
  have e2 : sys_write fd "[WARNING] \x00".toList 10 w = sys_write fd "[WARNING] ".toList 10 w :=
    rfl
  have e3 : sys_write fd "[ERROR] \x00".toList 8 w = sys_write fd "[ERROR] ".toList 8 w := rfl
  have e4 : sys_write fd "[FATAL] \x00".toList 8 w = sys_write fd "[FATAL] ".toList 8 w := rfl
  rw [e1, e2, e3, e4]
  rcases h with h | h | h | h <;> subst h
  · rw [if_pos rfl]
    exact congrArg (Result.done true) (three_writes fd "[INFO] ".toList message "\n\r".toList w)
  · rw [if_neg (by decide), if_pos rfl]
    exact congrArg (Result.done true)
      (three_writes fd "[WARNING] ".toList message "\n\r".toList w)
  · rw [if_neg (by decide), if_neg (by decide), if_pos rfl]
    exact congrArg (Result.done true) (three_writes fd "[ERROR] ".toList message "\n\r".toList w)
  · rw [if_neg (by decide), if_neg (by decide), if_neg (by decide), if_pos rfl]
    exact congrArg (Result.done true) (three_writes fd "[FATAL] ".toList message "\n\r".toList w)

theorem debug_writeF_open (n : Nat) (dyn : Bool) (category : Int) (message : List Char)
    (w : World) (h : valid_category category) (hd : w.debug_file.descriptor ≠ -1) :
    debug_writeF (n + 1) dyn category message w =
      Result.done true (appended w.debug_file.descriptor (file_entry category message) w) := by
  rw [debug_writeF]
  simp only [hd, if_false, false_and]
  exact debug_writeF_switch _ _ _ _ _ h

theorem debug_writeF_lazy (n : Nat) (dyn : Bool) (category : Int) (message : List Char)
    (w : World) (fd : Nat) (rest : List (Option Nat)) (h : valid_category category)
    (hd : w.debug_file.descriptor = -1) (hs : w.open_script = some fd :: rest) :
    debug_writeF (n + 1) dyn category message w =
      Result.done true (appended (fd : Int) (file_entry category message) (opened fd rest w)) := by
  have hfd : ¬ ((fd : Int) = -1) := by omega
  rw [debug_writeF]
  simp only [hd, sys_open, hs, if_true, true_and, hfd, if_false]
  exact debug_writeF_switch _ _ _ _ _ h

theorem debug_writeF_open_fails (n : Nat) (dyn : Bool) (category : Int) (message : List Char)
    (w : World) (hd : w.debug_file.descriptor = -1)
    (hs : ∀ fd rest, w.open_script ≠ some fd :: rest) :
    debug_writeF (n + 2) dyn category message w = Result.done false (open_failed w) := by
  obtain ⟨⟨en, path, descriptor⟩, colors, out, fds, fs, os, ms, cs⟩ := w
  simp only at hd hs
  subst hd
  rw [debug_writeF]
  have ho := fun v => debug_outputF_valid n DEBUG_ERROR msg_open_failed v
    (Or.inr (Or.inr (Or.inl rfl)))
  have hl : ∀ c, resolved_tag DEBUG_ERROR c = debug_category_text_colored_error c :=
    fun c => rfl
  match os, hs with
  | [], _ => simp only [sys_open, if_true, true_and, and_self, ho, hl, open_failed, List.tail]
  | none :: rest, _ =>
    simp only [sys_open, if_true, true_and, and_self, ho, hl, open_failed, List.tail]
  | some fd :: rest, hs => exact absurd rfl (hs fd rest)

theorem lines_only_append (a b : List Char) (ha : lines_only a) (hb : lines_only b) :
    lines_only (a ++ b) := by
  rcases hb with hb | ⟨q, hq⟩
  · subst hb; simpa using ha
  · exact Or.inr ⟨a ++ q, by rw [hq, List.append_assoc]⟩

theorem lines_only_terminal_line (tag message : List Char) :
    lines_only (terminal_line tag message) :=
  Or.inr ⟨tag ++ ' ' :: message, by simp [terminal_line]⟩

theorem keeps_refl (w : World) : keeps w w :=
  ⟨rfl, rfl, rfl, [], by simp, Or.inl rfl⟩

theorem keeps_trans (a b c : World) (h1 : keeps a b) (h2 : keeps b c) : keeps a c := by
  obtain ⟨c1, p1, e1, o1, s1, l1⟩ := h1
  obtain ⟨c2, p2, e2, o2, s2, l2⟩ := h2
  exact ⟨c2.trans c1, p2.trans p1, e2.trans e1, o1 ++ o2,
    by rw [s2, s1, List.append_assoc], lines_only_append _ _ l1 l2⟩

theorem keeps_appended (fd : Int) (bytes : List Char) (w : World) :
    keeps w (appended fd bytes w) := by
  unfold appended
  cases w.fds.lookup fd with
  | none => exact keeps_refl w
  | some p => exact ⟨rfl, rfl, rfl, [], by simp, Or.inl rfl⟩

theorem keeps_opened (fd : Nat) (rest : List (Option Nat)) (w : World) :
    keeps w (opened fd rest w) :=
  ⟨rfl, rfl, rfl, [], by simp [opened], Or.inl rfl⟩

theorem keeps_open_failed (w : World) : keeps w (open_failed w) :=
  ⟨rfl, rfl, rfl, _, rfl, lines_only_terminal_line _ _⟩

theorem debug_writeF_keeps (n : Nat) (dyn : Bool) (category : Int) (message : List Char)
    (w : World) (h : valid_category category) :
    ∃ b v, debug_writeF (n + 2) dyn category message w = Result.done b v ∧ keeps w v := by
  by_cases hd : w.debug_file.descriptor = -1
  · by_cases hs : ∃ fd rest, w.open_script = some fd :: rest
    · obtain ⟨fd, rest, hs⟩ := hs
      exact ⟨true, _, debug_writeF_lazy (n + 1) dyn category message w fd rest h hd hs,
        keeps_trans _ _ _ (keeps_opened fd rest w) (keeps_appended _ _ _)⟩
    · exact ⟨false, _, debug_writeF_open_fails n dyn category message w hd
        (fun fd rest e => hs ⟨fd, rest, e⟩), keeps_open_failed w⟩
  · exact ⟨true, _, debug_writeF_open (n + 1) dyn category message w h hd, keeps_appended _ _ _⟩

theorem debugF_succ (n : Nat) (dyn : Bool) (category : Int) (message : List Char)
    (args : List printf_arg) (w : World) :
    debugF (n + 1) dyn category message args w =
      match debug_format (fun c m a v => debugF n dyn c m a v) dyn message args w with
      | Formatted.stopped r => r
      | Formatted.ready message_formatted on_heap w0 =>
        match dispatch n dyn category message_formatted w0 with
        | Result.done outputted w2 => finish n dyn message args on_heap outputted w2
        | r => r := by
  rw [debugF]
  cases debug_format (fun c m a v => debugF n dyn c m a v) dyn message args w with
  | stopped r => rfl
  | ready mf heap w0 =>
    simp only [dispatch, finish]
    cases debug_outputF n category mf w0 with
    | done o w1 =>
      by_cases he : w1.debug_file.enabled = true
      · simp only [he, if_true]
      · simp only [he, if_false]
    | invalid_free v => rfl
    | out_of_fuel => rfl

theorem dispatch_valid (n : Nat) (dyn : Bool) (category : Int) (message : List Char)
    (w : World) (h : valid_category category) :
    ∃ b v post, dispatch (n + 2) dyn category message w = Result.done b v ∧ keeps w v ∧
      v.stdout = w.stdout ++ terminal_line (resolved_tag category w.debug_colors) message
        ++ post ∧ lines_only post := by
  unfold dispatch
  rw [debug_outputF_valid (n + 1) category message w h]
  simp only
  have k1 : keeps w { w with stdout :=
      (w.stdout ++ terminal_line (resolved_tag category w.debug_colors) message) } :=
    ⟨rfl, rfl, rfl, _, rfl, lines_only_terminal_line _ _⟩
  by_cases he : w.debug_file.enabled = true
  · simp only [he, if_true]
    obtain ⟨b, v, hv, kv⟩ := debug_writeF_keeps n dyn category message
      { w with stdout :=
        (w.stdout ++ terminal_line (resolved_tag category w.debug_colors) message) } h
    obtain ⟨_, _, _, post, hp, lp⟩ := kv
    exact ⟨b, v, post, hv, keeps_trans _ _ _ k1 ⟨by assumption, by assumption, by assumption,
      post, hp, lp⟩, hp, lp⟩
  · simp only [he, if_false]
    exact ⟨true, _, [], rfl, k1, by simp, Or.inl rfl⟩

theorem debug_format_fits (self : Int → List Char → List printf_arg → World → Result)
    (dyn : Bool) (message : List Char) (args : List printf_arg) (w : World)
    (h : (vformat message args).length ≤ 2047) :
    debug_format self dyn message args w = Formatted.ready (vformat message args) false w := by
  have hc : ¬ (formatted_message_size message args > DEBUG_MESSAGE_SIZE) :=
    formatted_message_size_fits message args (by assumption)
  have ht : vsnprintf DEBUG_MESSAGE_SIZE message args = vformat message args := by
    simp only [vsnprintf, DEBUG_MESSAGE_SIZE]
    exact List.take_of_length_le (by omega)
  simp only [debug_format, hc, false_and, if_false, ht]

theorem debug_format_heap (self : Int → List Char → List printf_arg → World → Result)
    (message : List Char) (args : List printf_arg) (w : World) (rest : List Bool)
    (h : 2047 < (vformat message args).length)
    (hi : (vformat message args).length < 2147483647)
    (hm : w.malloc_script = true :: rest) :
    debug_format self true message args w =
      Formatted.ready (vformat message args) true { w with malloc_script := rest } := by
  have hc : formatted_message_size message args > DEBUG_MESSAGE_SIZE :=
    (formatted_message_size_long message args h hi).1
  have ht := (formatted_message_size_long message args h hi).2
  simp only [debug_format, hc, true_and, if_true, malloc, hm, ht]

theorem finish_fits (n : Nat) (dyn : Bool) (message : List Char) (args : List printf_arg)
    (on_heap outputted : Bool) (w : World) (h : (vformat message args).length ≤ 2047) :
    finish n dyn message args on_heap outputted w = Result.done outputted w := by
  have hc : ¬ (formatted_message_size message args > DEBUG_MESSAGE_SIZE) :=
    formatted_message_size_fits message args (by assumption)
  simp only [finish, hc, if_false]

theorem finish_heap (n : Nat) (message : List Char) (args : List printf_arg)
    (outputted : Bool) (w : World) :
    finish n true message args true outputted w = Result.done outputted w := by
  simp [finish, free_then_return]

theorem debugF_fits (n : Nat) (dyn : Bool) (category : Int) (message : List Char)
    (args : List printf_arg) (w : World) (h : (vformat message args).length ≤ 2047) :
    debugF (n + 1) dyn category message args w =
      dispatch n dyn category (vformat message args) w := by
  rw [debugF_succ, debug_format_fits _ _ _ _ _ h]
  simp only
  cases dispatch n dyn category (vformat message args) w with
  | done o v => exact finish_fits n dyn message args false o v h
  | invalid_free v => rfl
  | out_of_fuel => rfl

theorem debugF_heap (n : Nat) (category : Int) (message : List Char)
    (args : List printf_arg) (w : World) (rest : List Bool)
    (h : 2047 < (vformat message args).length)
    (hi : (vformat message args).length < 2147483647)
    (hm : w.malloc_script = true :: rest) :
    debugF (n + 1) true category message args w =
      dispatch n true category (vformat message args) { w with malloc_script := rest } := by
  rw [debugF_succ, debug_format_heap _ _ _ _ _ h hi hm]
  simp only
  cases dispatch n true category (vformat message args) { w with malloc_script := rest } with
  | done o v => exact finish_heap n message args o v
  | invalid_free v => rfl
  | out_of_fuel => rfl

theorem debugF_fits_keeps (n : Nat) (dyn : Bool) (category : Int) (message : List Char)
    (args : List printf_arg) (w : World) (hv : valid_category category)
    (h : (vformat message args).length ≤ 2047) :
    ∃ b v post, debugF (n + 3) dyn category message args w = Result.done b v ∧ keeps w v ∧
      v.stdout = w.stdout ++
        terminal_line (resolved_tag category w.debug_colors) (vformat message args) ++ post ∧
      lines_only post := by
  rw [debugF_fits _ _ _ _ _ _ h]
  exact dispatch_valid n dyn category (vformat message args) w hv

theorem valid_DEBUG_WARN : valid_category DEBUG_WARN := Or.inr (Or.inl rfl)

theorem valid_DEBUG_ERROR : valid_category DEBUG_ERROR := Or.inr (Or.inr (Or.inl rfl))

/-- A self-diagnostic call of `debug` with one of the fixed texts returns and keeps the
configuration. -/
theorem debugF_diagnostic (n : Nat) (dyn : Bool) (category : Int) (text : List Char) (w : World)
    (hv : valid_category category) (ht : vformat text [] = text) (hl : text.length ≤ 2047) :
    ∃ b v, debugF (n + 3) dyn category text [] w = Result.done b v ∧ keeps w v := by
  obtain ⟨b, v, _, hr, hk, _⟩ := debugF_fits_keeps n dyn category text [] w hv (by rw [ht]; exact hl)
  exact ⟨b, v, hr, hk⟩

theorem msg_invalid_category_plain :
    vformat msg_invalid_category [] = msg_invalid_category ∧
      msg_invalid_category.length ≤ 2047 := by decide

theorem msg_allocation_failed_plain :
    vformat msg_allocation_failed [] = msg_allocation_failed ∧
      msg_allocation_failed.length ≤ 2047 := by decide

theorem msg_truncated_plain :
    vformat msg_truncated [] = msg_truncated ∧ msg_truncated.length ≤ 2047 := by decide

theorem msg_path_length_plain :
    vformat msg_path_length [] = msg_path_length ∧ msg_path_length.length ≤ 2047 := by decide

theorem debug_format_stopped (self : Int → List Char → List printf_arg → World → Result)
    (dyn : Bool) (message : List Char) (args : List printf_arg) (w : World) (r : Result)
    (h : debug_format self dyn message args w = Formatted.stopped r) (b : Bool) (v : World) :
    r ≠ Result.done b v := by
  intro hr
  subst hr
  unfold debug_format at h
  repeat' split at h
  all_goals first
    | exact Formatted.noConfusion h
    | (rename_i hne; injection h with h; exact hne _ _ h)

theorem finish_done (n : Nat) (dyn : Bool) (message : List Char) (args : List printf_arg)
    (on_heap outputted : Bool) (w : World) (b : Bool) (v : World)
    (h : finish n dyn message args on_heap outputted w = Result.done b v) : b = outputted := by
  unfold finish at h
  split at h
  · split at h
    · split at h
      · injection h with h1 h2; exact h1.symm
      · rename_i r1 hne
        exact absurd h (by intro e; exact hne _ _ e)
    · unfold free_then_return at h
      split at h
      · injection h with h1 h2; exact h1.symm
      · exact Result.noConfusion h
  · injection h with h1 h2; exact h1.symm

theorem debug_writeF_true (fuel : Nat) (dyn : Bool) (category : Int) (message : List Char)
    (w v : World) (h : debug_writeF fuel dyn category message w = Result.done true v) :
    valid_category category := by
  cases fuel with
  | zero => rw [debug_writeF] at h; exact Result.noConfusion h
  | succ n =>
    by_contra hv
    have h1 : category ≠ DEBUG_INFO := fun e => hv (Or.inl e)
    have h2 : category ≠ DEBUG_WARN := fun e => hv (Or.inr (Or.inl e))
    have h3 : category ≠ DEBUG_ERROR := fun e => hv (Or.inr (Or.inr (Or.inl e)))
    have h4 : category ≠ DEBUG_FATAL := fun e => hv (Or.inr (Or.inr (Or.inr e)))
    rw [debug_writeF] at h
    simp only [h1, h2, h3, h4, if_false] at h
    repeat' split at h
    all_goals first
      | exact Result.noConfusion h
      | (injection h with e _; exact Bool.noConfusion e)
      | (rename_i hne; exact hne _ _ h)

theorem debug_outputF_done_valid (fuel : Nat) (category : Int) (message : List Char)
    (w v : World) (b : Bool) (hv : valid_category category)
    (h : debug_outputF fuel category message w = Result.done b v) : b = true := by
  cases fuel with
  | zero => rw [debug_outputF] at h; exact Result.noConfusion h
  | succ n =>
    rw [debug_outputF_valid n category message w hv] at h
    injection h with e _
    exact e.symm

theorem appended_opened_fs (fd : Nat) (rest : List (Option Nat)) (bytes : List Char)
    (w : World) :
    (appended (fd : Int) bytes (opened fd rest w)).fs w.debug_file.path =
      w.fs w.debug_file.path ++ bytes := by
  simp [appended, opened, List.lookup]

theorem appended_fs (fd : Int) (bytes p : List Char) (w : World)
    (h : w.fds.lookup fd = some p) : (appended fd bytes w).fs p = w.fs p ++ bytes := by
  simp [appended, h]

/-- What the dispatch of debug.c lines 125-127 does with a message at a valid category. -/
theorem dispatch_verbatim (n : Nat) (dyn : Bool) (category : Int) (m : List Char) (w : World)
    (hv : valid_category category) :
    ∃ w1, debug_outputF (n + 2) category m w = Result.done true w1 ∧
      w1.stdout = w.stdout ++ terminal_line (resolved_tag category w.debug_colors) m ∧
      (w.debug_file.enabled = false → dispatch (n + 2) dyn category m w = Result.done true w1) ∧
      (w.debug_file.enabled = true →
        dispatch (n + 2) dyn category m w = debug_writeF (n + 2) dyn category m w1) ∧
      (w.debug_file.enabled = true → w.debug_file.descriptor = -1 →
        ∀ fd rest, w.open_script = some fd :: rest →
          ∃ v, dispatch (n + 2) dyn category m w = Result.done true v ∧
            v.fs w.debug_file.path = w.fs w.debug_file.path ++ file_entry category m) := by
  refine ⟨_, debug_outputF_valid (n + 1) category m w hv, rfl, ?_, ?_, ?_⟩
  · intro he
    simp only [dispatch, debug_outputF_valid (n + 1) category m w hv, he]
    rfl
  · intro he
    simp only [dispatch, debug_outputF_valid (n + 1) category m w hv, he, if_true]
  · intro he hd fd rest hs
    have hw := debug_writeF_lazy (n + 1) dyn category m
      { w with stdout := (w.stdout ++ terminal_line (resolved_tag category w.debug_colors) m) }
      fd rest hv hd hs
    refine ⟨_, ?_, appended_opened_fs fd rest (file_entry category m)
      { w with stdout :=
        (w.stdout ++ terminal_line (resolved_tag category w.debug_colors) m) }⟩
    simp only [dispatch, debug_outputF_valid (n + 1) category m w hv, he, if_true]
    exact hw

theorem vformat_plain (s : List Char) (args : List printf_arg) (h : '%' ∉ s) :
    vformat s args = s := by
  induction s with
  | nil => rfl
  | cons c rest ih =>
    have hc : c ≠ '%' := fun e => h (by simp [e])
    have hr : '%' ∉ rest := fun e => h (by simp [e])
    unfold vformat
    rw [if_neg hc, ih hr]

theorem length_vformat_replicate (k : Nat) :
    (vformat (List.replicate k 'a') []).length = k := by
  rw [vformat_plain _ _ (by simp [List.mem_replicate])]
  simp

theorem info_tag (c : debug_colors_t) (d : Nat) (hd : d ≤ 7) (h : c.info = (d : Int)) :
    debug_category_text_colored_info c = expected_tag c.enabled DEBUG_INFO d := by
  obtain ⟨i, w, e, f, en⟩ := c
  simp only at h
  subst h
  interval_cases d <;> cases en <;> rfl

theorem warn_tag (c : debug_colors_t) (d : Nat) (hd : d ≤ 7) (h : c.warn = (d : Int)) :
    debug_category_text_colored_warn c = expected_tag c.enabled DEBUG_WARN d := by
  obtain ⟨i, w, e, f, en⟩ := c
  simp only at h
  subst h
  interval_cases d <;> cases en <;> rfl

theorem error_tag (c : debug_colors_t) (d : Nat) (hd : d ≤ 7) (h : c.error = (d : Int)) :
    debug_category_text_colored_error c = expected_tag c.enabled DEBUG_ERROR d := by
  obtain ⟨i, w, e, f, en⟩ := c
  simp only at h
  subst h
  interval_cases d <;> cases en <;> rfl

theorem fatal_tag (c : debug_colors_t) (d : Nat) (hd : d ≤ 7) (h : c.fatal = (d : Int)) :
    debug_category_text_colored_fatal c = expected_tag c.enabled DEBUG_FATAL d := by
  obtain ⟨i, w, e, f, en⟩ := c
  simp only at h
  subst h
  interval_cases d <;> cases en <;> rfl

theorem disabled_tags (c : debug_colors_t) (h : c.enabled = false) :
    debug_category_text_colored_info c = plain_tag "INFO".toList ∧
      debug_category_text_colored_warn c = plain_tag "WARNING".toList ∧
      debug_category_text_colored_error c = plain_tag "ERROR".toList ∧
      debug_category_text_colored_fatal c = plain_tag "FATAL".toList := by
  simp only [debug_category_text_colored_info, debug_category_text_colored_warn,
    debug_category_text_colored_error, debug_category_text_colored_fatal, h]
  exact ⟨rfl, rfl, rfl, rfl⟩

theorem keeps_malloc_script (w : World) (rest : List Bool) :
    keeps w { w with malloc_script := rest } :=
  ⟨rfl, rfl, rfl, [], by simp, Or.inl rfl⟩

/-- The formatting part of `debug` always yields a string: the rendered text or its first 2047
bytes. -/
theorem debug_format_ready (n : Nat) (dyn : Bool) (message : List Char)
    (args : List printf_arg) (w : World) :
    ∃ mf on_heap w0,
      debug_format (fun c m a u => debugF (n + 3) dyn c m a u) dyn message args w =
        Formatted.ready mf on_heap w0 ∧ keeps w w0 ∧
      (mf = vformat message args ∨ mf = (vformat message args).take 2047) := by
  have h47 : vsnprintf DEBUG_MESSAGE_SIZE message args = (vformat message args).take 2047 := rfl
  unfold debug_format
  by_cases hc : formatted_message_size message args > DEBUG_MESSAGE_SIZE ∧ dyn = true
  · have hall := (formatted_message_size_long message args
      (formatted_message_size_gt message args hc.1).1
      (formatted_message_size_gt message args hc.1).2).2
    rw [if_pos hc]
    cases hm : w.malloc_script with
    | nil =>
      obtain ⟨b, v, hr, hk⟩ := debugF_diagnostic n dyn DEBUG_WARN msg_allocation_failed w
        valid_DEBUG_WARN msg_allocation_failed_plain.1 msg_allocation_failed_plain.2
      simp only [malloc, hm, hr]
      exact ⟨_, _, _, rfl, hk, Or.inr h47⟩
    | cons ok rest =>
      cases ok with
      | false =>
        obtain ⟨b, v, hr, hk⟩ := debugF_diagnostic n dyn DEBUG_WARN msg_allocation_failed
          { w with malloc_script := rest }
          valid_DEBUG_WARN msg_allocation_failed_plain.1 msg_allocation_failed_plain.2
        simp only [malloc, hm, hr]
        exact ⟨_, _, _, rfl, keeps_trans _ _ _ (keeps_malloc_script w rest) hk, Or.inr h47⟩
      | true =>
        simp only [malloc, hm]
        exact ⟨_, _, _, rfl, keeps_malloc_script w rest, Or.inl hall⟩
  · rw [if_neg hc]
    exact ⟨_, _, _, rfl, keeps_refl w, Or.inr h47⟩

/-- The end of `debug` stops in a state that keeps the configuration. -/
theorem finish_keeps (n : Nat) (dyn : Bool) (message : List Char) (args : List printf_arg)
    (on_heap outputted : Bool) (w : World) :
    ∃ v, (finish (n + 3) dyn message args on_heap outputted w).final = some v ∧ keeps w v := by
  unfold finish
  by_cases hc : formatted_message_size message args > DEBUG_MESSAGE_SIZE
  · rw [if_pos hc]
    by_cases hd : dyn = false
    · obtain ⟨b, v, hr, hk⟩ := debugF_diagnostic n dyn DEBUG_WARN msg_truncated w
        valid_DEBUG_WARN msg_truncated_plain.1 msg_truncated_plain.2
      rw [if_pos hd, hr]
      exact ⟨v, rfl, hk⟩
    · rw [if_neg hd]
      cases on_heap <;> exact ⟨w, rfl, keeps_refl w⟩
  · rw [if_neg hc]
    exact ⟨w, rfl, keeps_refl w⟩

/-- A call of `debug` at a valid category stops, and has then printed the line of the message,
label first, after whole lines only. -/
theorem debugF_valid_emits (n : Nat) (dyn : Bool) (category : Int) (message : List Char)
    (args : List printf_arg) (w : World) (hv : valid_category category) :
    ∃ v pre body post, (debugF (n + 4) dyn category message args w).final = some v ∧
      v.stdout = w.stdout ++ pre ++
        terminal_line (resolved_tag category w.debug_colors) body ++ post ∧
      lines_only pre ∧ (body = vformat message args ∨ body = (vformat message args).take 2047) := by
  obtain ⟨mf, heap, w0, hf, k0, hm⟩ := debug_format_ready n dyn message args w
  obtain ⟨b, w2, post, hd, _, h2, _⟩ := dispatch_valid (n + 1) dyn category mf w0 hv
  obtain ⟨v, hfin, k3⟩ := finish_keeps n dyn message args heap b w2
  obtain ⟨c0, _, _, pre, hpre, lpre⟩ := k0
  obtain ⟨_, _, _, out3, h3, _⟩ := k3
  refine ⟨v, pre, mf, post ++ out3, ?_, ?_, lpre, hm⟩
  · rw [debugF_succ, hf]
    simp only
    rw [hd]
    exact hfin
  · rw [h3, h2, hpre, c0]
    simp only [List.append_assoc]

theorem file_token_eq (category : Int) (hv : valid_category category) :
    file_token category = plain_tag (level_word category) ++ [' '] := by
  rcases hv with h | h | h | h <;> subst h <;> rfl

theorem appended_fs_other (fd : Int) (bytes p q : List Char) (w : World)
    (h : w.fds.lookup fd = some p) (hq : q ≠ p) : (appended fd bytes w).fs q = w.fs q := by
  simp [appended, h, hq]

theorem appended_opened_fs_other (fd : Nat) (rest : List (Option Nat)) (bytes q : List Char)
    (w : World) (hq : q ≠ w.debug_file.path) :
    (appended (fd : Int) bytes (opened fd rest w)).fs q = w.fs q := by
  simp [appended, opened, List.lookup, hq]

/-! ## The claims -/

/-- C1: for every state, every colour and every category outside the four enumerators of
`debug_t`, `debug_color` returns false and the colour configuration (the four colours and the
enabled flag) is the one it was before the call. -/
theorem debug_color_invalid_category (n : Nat) (dyn : Bool) (category color : Int) (w : World)
    (h : ¬ valid_category category) :
    ∃ v, debug_colorF (n + 3) dyn category color w = Result.done false v ∧
      v.debug_colors = w.debug_colors := by
  have h1 : category ≠ DEBUG_INFO := fun e => h (Or.inl e)
  have h2 : category ≠ DEBUG_WARN := fun e => h (Or.inr (Or.inl e))
  have h3 : category ≠ DEBUG_ERROR := fun e => h (Or.inr (Or.inr (Or.inl e)))
  have h4 : category ≠ DEBUG_FATAL := fun e => h (Or.inr (Or.inr (Or.inr e)))
  obtain ⟨b, v, hr, hk⟩ := debugF_diagnostic n dyn DEBUG_WARN msg_invalid_category w
    valid_DEBUG_WARN msg_invalid_category_plain.1 msg_invalid_category_plain.2
  refine ⟨v, ?_, hk.1⟩
  simp only [debug_colorF, h1, h2, h3, h4, if_false, hr]

theorem debug_color_invalid_category_witness :
    ¬ valid_category 4 ∧
      ∃ v, debug_colorF 3 true 4 DEBUG_COLOR_RED (World.initial (fun _ => []) [] [] []) =
          Result.done false v ∧
        v.debug_colors = (World.initial (fun _ => []) [] [] []).debug_colors :=
  ⟨by decide, debug_color_invalid_category 0 true 4 DEBUG_COLOR_RED _ (by decide)⟩

/-- C2: for every path and every state, `debug_set_file` returns, it returns false exactly when
the length of the path is at least `PATH_MAX`, and when it returns false the configured path is
the one it was before the call. -/
theorem debug_set_file_false_iff (n : Nat) (dyn : Bool) (PATH_MAX : Nat) (path : List Char)
    (w : World) :
    ∃ b v, debug_set_fileF (n + 3) dyn PATH_MAX path w = Result.done b v ∧
      (b = false ↔ path.length ≥ PATH_MAX) ∧
      (b = false → v.debug_file.path = w.debug_file.path) := by
  by_cases hp : path.length ≥ PATH_MAX
  · obtain ⟨b, v, hr, hk⟩ := debugF_diagnostic n dyn DEBUG_ERROR msg_path_length w
      valid_DEBUG_ERROR msg_path_length_plain.1 msg_path_length_plain.2
    refine ⟨false, v, ?_, ⟨fun _ => hp, fun _ => rfl⟩, fun _ => hk.2.1⟩
    simp only [debug_set_fileF, hp, if_true, hr]
  · refine ⟨true,
      { w with debug_file := { w.debug_file with path := strncpy path PATH_MAX } }, ?_,
      ⟨fun e => absurd e (by decide), fun e => absurd e hp⟩, fun e => absurd e (by decide)⟩
    simp only [debug_set_fileF, hp, if_false]

/-- C3: for every state, category and message, when `debug` returns true the call of
`debug_output` it made returned true, and when the file sink was enabled the call of
`debug_write` it made returned true as well. -/
theorem debug_true_only_if_sinks_true (fuel : Nat) (dyn : Bool) (category : Int)
    (message : List Char) (args : List printf_arg) (w v : World)
    (h : debugF fuel dyn category message args w = Result.done true v) :
    ∃ n message_formatted on_heap w0 w1, fuel = n + 1 ∧
      debug_format (fun c m a u => debugF n dyn c m a u) dyn message args w =
        Formatted.ready message_formatted on_heap w0 ∧
      debug_outputF n category message_formatted w0 = Result.done true w1 ∧
      (w1.debug_file.enabled = true →
        ∃ w2, debug_writeF n dyn category message_formatted w1 = Result.done true w2) := by
  cases fuel with
  | zero => rw [debugF] at h; exact Result.noConfusion h
  | succ n =>
    rw [debugF_succ] at h
    cases hf : debug_format (fun c m a u => debugF n dyn c m a u) dyn message args w with
    | stopped r =>
      rw [hf] at h
      exact absurd h (debug_format_stopped _ _ _ _ _ _ hf true v)
    | ready mf heap w0 =>
      rw [hf] at h
      simp only at h
      cases hd : dispatch n dyn category mf w0 with
      | invalid_free u => rw [hd] at h; exact Result.noConfusion h
      | out_of_fuel => rw [hd] at h; exact Result.noConfusion h
      | done o w2 =>
        rw [hd] at h
        simp only at h
        have ho := finish_done _ _ _ _ _ _ _ _ _ h
        subst ho
        unfold dispatch at hd
        cases hout : debug_outputF n category mf w0 with
        | invalid_free u => rw [hout] at hd; exact Result.noConfusion hd
        | out_of_fuel => rw [hout] at hd; exact Result.noConfusion hd
        | done o1 w1 =>
          rw [hout] at hd
          simp only at hd
          by_cases he : w1.debug_file.enabled = true
          · rw [if_pos he] at hd
            have hv := debug_writeF_true _ _ _ _ _ _ hd
            have ho1 := debug_outputF_done_valid _ _ _ _ _ _ hv hout
            subst ho1
            exact ⟨n, mf, heap, w0, w1, rfl, hf, hout, fun _ => ⟨w2, hd⟩⟩
          · rw [if_neg he] at hd
            injection hd with e1 e2
            subst e1
            exact ⟨n, mf, heap, w0, w1, rfl, hf, hout, fun e => absurd e he⟩

theorem debug_true_only_if_sinks_true_witness :
    ∃ n message_formatted on_heap w0 w1, 3 = n + 1 ∧
      debug_format (fun c m a u => debugF n true c m a u) true "x".toList []
          (World.initial (fun _ => []) [] [] []) =
        Formatted.ready message_formatted on_heap w0 ∧
      debug_outputF n DEBUG_INFO message_formatted w0 = Result.done true w1 ∧
      (w1.debug_file.enabled = true →
        ∃ w2, debug_writeF n true DEBUG_INFO message_formatted w1 = Result.done true w2) :=
  debug_true_only_if_sinks_true 3 true DEBUG_INFO "x".toList []
    (World.initial (fun _ => []) [] [] [])
    { World.initial (fun _ => []) [] [] [] with stdout := "[\x1b[0;32mINFO\x1b[0m] x\n\r".toList }
    rfl

/-- C4: for every valid category and every template and arguments whose rendered text has at most
2047 bytes, `debug` hands the whole rendered text to `debug_output`, which prints it after the
label, and, when the file sink is enabled, to `debug_write`; when the file is then opened, the
entry appended to it holds the whole text.  The bound is exact: 2047 bytes are within it. -/
theorem debug_short_message_verbatim (n : Nat) (dyn : Bool) (category : Int)
    (message : List Char) (args : List printf_arg) (w : World) (hv : valid_category category)
    (hl : (vformat message args).length ≤ 2047) :
    ∃ w1, debug_outputF (n + 2) category (vformat message args) w = Result.done true w1 ∧
      w1.stdout = w.stdout ++
        terminal_line (resolved_tag category w.debug_colors) (vformat message args) ∧
      (w.debug_file.enabled = false →
        debugF (n + 3) dyn category message args w = Result.done true w1) ∧
      (w.debug_file.enabled = true →
        debugF (n + 3) dyn category message args w =
          debug_writeF (n + 2) dyn category (vformat message args) w1) ∧
      (w.debug_file.enabled = true → w.debug_file.descriptor = -1 →
        ∀ fd rest, w.open_script = some fd :: rest →
          ∃ v, debugF (n + 3) dyn category message args w = Result.done true v ∧
            v.fs w.debug_file.path =
              w.fs w.debug_file.path ++ file_entry category (vformat message args)) := by
  rw [debugF_fits _ _ _ _ _ _ hl]
  exact dispatch_verbatim n dyn category (vformat message args) w hv

theorem debug_short_message_verbatim_witness :
    valid_category DEBUG_ERROR ∧ (vformat (List.replicate 2047 'a') []).length ≤ 2047 ∧
    ∃ w1, debug_outputF 2 DEBUG_ERROR (vformat (List.replicate 2047 'a') []) world_logging =
        Result.done true w1 ∧
      w1.stdout = world_logging.stdout ++
        terminal_line (resolved_tag DEBUG_ERROR world_logging.debug_colors)
          (vformat (List.replicate 2047 'a') []) ∧
      (world_logging.debug_file.enabled = false →
        debugF 3 true DEBUG_ERROR (List.replicate 2047 'a') [] world_logging =
          Result.done true w1) ∧
      (world_logging.debug_file.enabled = true →
        debugF 3 true DEBUG_ERROR (List.replicate 2047 'a') [] world_logging =
          debug_writeF 2 true DEBUG_ERROR (vformat (List.replicate 2047 'a') []) w1) ∧
      (world_logging.debug_file.enabled = true → world_logging.debug_file.descriptor = -1 →
        ∀ fd rest, world_logging.open_script = some fd :: rest →
          ∃ v, debugF 3 true DEBUG_ERROR (List.replicate 2047 'a') [] world_logging =
              Result.done true v ∧
            v.fs world_logging.debug_file.path =
              world_logging.fs world_logging.debug_file.path ++
                file_entry DEBUG_ERROR (vformat (List.replicate 2047 'a') [])) :=
  ⟨by decide, le_of_eq (length_vformat_replicate 2047),
    debug_short_message_verbatim 0 true DEBUG_ERROR (List.replicate 2047 'a') [] world_logging
      (by decide) (le_of_eq (length_vformat_replicate 2047))⟩

/-- C5, amended: for every valid category and every rendered text longer than 2047 bytes whose
size, the length and the terminator, is an `int` (the length is less than `INT_MAX`), in the
build that allows dynamic allocation and when `malloc` succeeds, `debug` hands the whole rendered
text to `debug_output`, which prints it after the label, and, when the file sink is enabled, to
`debug_write`; when the file is then opened, the entry appended to it holds the whole text. -/
theorem debug_long_message_verbatim (n : Nat) (category : Int) (message : List Char)
    (args : List printf_arg) (w : World) (rest : List Bool) (hv : valid_category category)
    (hl : 2047 < (vformat message args).length)
    (hi : (vformat message args).length < 2147483647)
    (hm : w.malloc_script = true :: rest) :
    ∃ w1, debug_outputF (n + 2) category (vformat message args)
        { w with malloc_script := rest } = Result.done true w1 ∧
      w1.stdout = w.stdout ++
        terminal_line (resolved_tag category w.debug_colors) (vformat message args) ∧
      (w.debug_file.enabled = false →
        debugF (n + 3) DEBUG_ALLOW_DYNAMIC_ALLOCATION category message args w =
          Result.done true w1) ∧
      (w.debug_file.enabled = true →
        debugF (n + 3) DEBUG_ALLOW_DYNAMIC_ALLOCATION category message args w =
          debug_writeF (n + 2) DEBUG_ALLOW_DYNAMIC_ALLOCATION category (vformat message args)
            w1) ∧
      (w.debug_file.enabled = true → w.debug_file.descriptor = -1 →
        ∀ fd rest1, w.open_script = some fd :: rest1 →
          ∃ v, debugF (n + 3) DEBUG_ALLOW_DYNAMIC_ALLOCATION category message args w =
              Result.done true v ∧
            v.fs w.debug_file.path =
              w.fs w.debug_file.path ++ file_entry category (vformat message args)) := by
  have hd : DEBUG_ALLOW_DYNAMIC_ALLOCATION = true := rfl
  rw [hd, debugF_heap _ _ _ _ _ _ hl hi hm]
  exact dispatch_verbatim n true category (vformat message args) { w with malloc_script := rest }
    hv

theorem debug_long_message_verbatim_witness :
    valid_category DEBUG_INFO ∧ 2047 < (vformat (List.replicate 2048 'a') []).length ∧
    (vformat (List.replicate 2048 'a') []).length < 2147483647 ∧
    world_logging.malloc_script = true :: [] ∧
    ∃ w1, debug_outputF 2 DEBUG_INFO (vformat (List.replicate 2048 'a') [])
        { world_logging with malloc_script := [] } = Result.done true w1 ∧
      w1.stdout = world_logging.stdout ++
        terminal_line (resolved_tag DEBUG_INFO world_logging.debug_colors)
          (vformat (List.replicate 2048 'a') []) ∧
      (world_logging.debug_file.enabled = false →
        debugF 3 DEBUG_ALLOW_DYNAMIC_ALLOCATION DEBUG_INFO (List.replicate 2048 'a') []
          world_logging = Result.done true w1) ∧
      (world_logging.debug_file.enabled = true →
        debugF 3 DEBUG_ALLOW_DYNAMIC_ALLOCATION DEBUG_INFO (List.replicate 2048 'a') []
            world_logging =
          debug_writeF 2 DEBUG_ALLOW_DYNAMIC_ALLOCATION DEBUG_INFO
            (vformat (List.replicate 2048 'a') []) w1) ∧
      (world_logging.debug_file.enabled = true → world_logging.debug_file.descriptor = -1 →
        ∀ fd rest1, world_logging.open_script = some fd :: rest1 →
          ∃ v, debugF 3 DEBUG_ALLOW_DYNAMIC_ALLOCATION DEBUG_INFO (List.replicate 2048 'a') []
              world_logging = Result.done true v ∧
            v.fs world_logging.debug_file.path =
              world_logging.fs world_logging.debug_file.path ++
                file_entry DEBUG_INFO (vformat (List.replicate 2048 'a') [])) :=
  ⟨by decide, lt_of_lt_of_eq (by decide) (length_vformat_replicate 2048).symm,
    lt_of_eq_of_lt (length_vformat_replicate 2048) (by decide), rfl,
    debug_long_message_verbatim 0 DEBUG_INFO (List.replicate 2048 'a') [] world_logging []
      (by decide) (lt_of_lt_of_eq (by decide) (length_vformat_replicate 2048).symm)
      (lt_of_eq_of_lt (length_vformat_replicate 2048) (by decide)) rfl⟩

/-- C6: for each of the four levels and each of the eight colours, of ordinal `d` from 0 (black)
to 7 (white): with colours enabled the label is `[` ESC `[0;3d m` WORD ESC `[0m` `]`, where WORD
is INFO, WARNING, ERROR or FATAL; with colours disabled the label is `[WORD]` whatever colours
are assigned. -/
theorem tags_of_levels_and_colors (c : debug_colors_t) (d : Nat) (hd : d ≤ 7) :
    (debug_category_text_colored_info { c with info := (d : Int), enabled := true } =
        colored_tag d "INFO".toList ∧
      debug_category_text_colored_warn { c with warn := (d : Int), enabled := true } =
        colored_tag d "WARNING".toList ∧
      debug_category_text_colored_error { c with error := (d : Int), enabled := true } =
        colored_tag d "ERROR".toList ∧
      debug_category_text_colored_fatal { c with fatal := (d : Int), enabled := true } =
        colored_tag d "FATAL".toList) ∧
    (debug_category_text_colored_info { c with enabled := false } = plain_tag "INFO".toList ∧
      debug_category_text_colored_warn { c with enabled := false } =
        plain_tag "WARNING".toList ∧
      debug_category_text_colored_error { c with enabled := false } =
        plain_tag "ERROR".toList ∧
      debug_category_text_colored_fatal { c with enabled := false } =
        plain_tag "FATAL".toList) :=
  ⟨⟨info_tag _ d hd rfl, warn_tag _ d hd rfl, error_tag _ d hd rfl,
    fatal_tag _ d hd rfl⟩, disabled_tags _ rfl⟩

theorem tags_of_levels_and_colors_witness :
    (5 : Nat) ≤ 7 ∧
    (debug_category_text_colored_info { debug_colors_init with info := 5, enabled := true } =
        "[\x1b[0;35mINFO\x1b[0m]".toList ∧
      debug_category_text_colored_warn { debug_colors_init with warn := 5, enabled := true } =
        "[\x1b[0;35mWARNING\x1b[0m]".toList ∧
      debug_category_text_colored_error { debug_colors_init with error := 5, enabled := true } =
        "[\x1b[0;35mERROR\x1b[0m]".toList ∧
      debug_category_text_colored_fatal { debug_colors_init with fatal := 5, enabled := true } =
        "[\x1b[0;35mFATAL\x1b[0m]".toList) ∧
    (debug_category_text_colored_info { debug_colors_init with enabled := false } =
        "[INFO]".toList ∧
      debug_category_text_colored_warn { debug_colors_init with enabled := false } =
        "[WARNING]".toList ∧
      debug_category_text_colored_error { debug_colors_init with enabled := false } =
        "[ERROR]".toList ∧
      debug_category_text_colored_fatal { debug_colors_init with enabled := false } =
        "[FATAL]".toList) :=
  ⟨by decide, tags_of_levels_and_colors debug_colors_init 5 (by decide)⟩

/-- C7: for every valid category, every colour (of ordinal `d` from 0 to 7) and every starting
state, `debug_color` returns true, and a following call of `debug` at that category prints a
line that starts with the label of the category: wrapped in exactly that colour when colours are
enabled, plain when they are disabled. -/
theorem debug_color_then_debug (fuel n : Nat) (dyn : Bool) (category : Int) (d : Nat)
    (w : World) (message : List Char) (args : List printf_arg) (hv : valid_category category)
    (hd : d ≤ 7) :
    ∃ w1, debug_colorF fuel dyn category (d : Int) w = Result.done true w1 ∧
      ∃ v pre body post, (debugF (n + 4) dyn category message args w1).final = some v ∧
        v.stdout = w.stdout ++ pre ++
          terminal_line (expected_tag w.debug_colors.enabled category d) body ++ post ∧
        lines_only pre ∧
        (body = vformat message args ∨ body = (vformat message args).take 2047) := by
  rcases hv with h | h | h | h <;> subst h
  · refine ⟨{ w with debug_colors := { w.debug_colors with info := (d : Int) } }, rfl, ?_⟩
    have hl := info_tag { w.debug_colors with info := (d : Int) } d hd rfl
    have he := debugF_valid_emits n dyn DEBUG_INFO message args
      { w with debug_colors := { w.debug_colors with info := (d : Int) } } (Or.inl rfl)
    have hr : ∀ c, resolved_tag DEBUG_INFO c = debug_category_text_colored_info c :=
      fun _ => rfl
    rw [hr, hl] at he
    exact he
  · refine ⟨{ w with debug_colors := { w.debug_colors with warn := (d : Int) } }, rfl, ?_⟩
    have hl := warn_tag { w.debug_colors with warn := (d : Int) } d hd rfl
    have he := debugF_valid_emits n dyn DEBUG_WARN message args
      { w with debug_colors := { w.debug_colors with warn := (d : Int) } } valid_DEBUG_WARN
    have hr : ∀ c, resolved_tag DEBUG_WARN c = debug_category_text_colored_warn c :=
      fun _ => rfl
    rw [hr, hl] at he
    exact he
  · refine ⟨{ w with debug_colors := { w.debug_colors with error := (d : Int) } }, rfl, ?_⟩
    have hl := error_tag { w.debug_colors with error := (d : Int) } d hd rfl
    have he := debugF_valid_emits n dyn DEBUG_ERROR message args
      { w with debug_colors := { w.debug_colors with error := (d : Int) } } valid_DEBUG_ERROR
    have hr : ∀ c, resolved_tag DEBUG_ERROR c = debug_category_text_colored_error c :=
      fun _ => rfl
    rw [hr, hl] at he
    exact he
  · refine ⟨{ w with debug_colors := { w.debug_colors with fatal := (d : Int) } }, rfl, ?_⟩
    have hl := fatal_tag { w.debug_colors with fatal := (d : Int) } d hd rfl
    have he := debugF_valid_emits n dyn DEBUG_FATAL message args
      { w with debug_colors := { w.debug_colors with fatal := (d : Int) } }
      (Or.inr (Or.inr (Or.inr rfl)))
    have hr : ∀ c, resolved_tag DEBUG_FATAL c = debug_category_text_colored_fatal c :=
      fun _ => rfl
    rw [hr, hl] at he
    exact he

theorem debug_color_then_debug_witness :
    valid_category DEBUG_FATAL ∧ (4 : Nat) ≤ 7 ∧
    ∃ w1, debug_colorF 0 true DEBUG_FATAL ((4 : Nat) : Int) world_logging = Result.done true w1 ∧
      ∃ v pre body post, (debugF 4 true DEBUG_FATAL "disk %s".toList
          [printf_arg.str "full".toList] w1).final = some v ∧
        v.stdout = world_logging.stdout ++ pre ++
          terminal_line (expected_tag world_logging.debug_colors.enabled DEBUG_FATAL 4) body ++
            post ∧
        lines_only pre ∧
        (body = vformat "disk %s".toList [printf_arg.str "full".toList] ∨
          body = (vformat "disk %s".toList [printf_arg.str "full".toList]).take 2047) :=
  ⟨by decide, by decide,
    debug_color_then_debug 0 0 true DEBUG_FATAL 4 world_logging "disk %s".toList
      [printf_arg.str "full".toList] (by decide) (by decide)⟩

/-- C8: for every valid category and message, `debug_output` appends to standard output exactly
the resolved label, one space, the message and the two bytes `\n\r`, and returns true; and from
the state at process start `debug(DEBUG_INFO, "value=%d", 42)` returns true having printed the
green-wrapped `[INFO]` label, then ` value=42`, then `\n\r`. -/
theorem debug_output_line (n : Nat) (dyn : Bool) (category : Int) (message : List Char)
    (w : World) (hv : valid_category category) :
    debug_outputF (n + 1) category message w =
        Result.done true { w with stdout :=
          (w.stdout ++ (resolved_tag category w.debug_colors ++ [' '] ++ message ++
            ['\n', '\r'])) } ∧
      ∀ fs opens mallocs closes, ∃ v,
        debugF (n + 2) dyn DEBUG_INFO "value=%d".toList [printf_arg.int 42]
            (World.initial fs opens mallocs closes) = Result.done true v ∧
          v.stdout = "[\x1b[0;32mINFO\x1b[0m] value=42\n\r".toList := by
  constructor
  · rw [debug_outputF_valid n category message w hv]
    simp [terminal_line]
  · intro fs opens mallocs closes
    have hl : (vformat "value=%d".toList [printf_arg.int 42]).length ≤ 2047 := by decide
    rw [debugF_fits _ _ _ _ _ _ hl]
    exact ⟨_, rfl, rfl⟩

theorem debug_output_line_witness :
    valid_category DEBUG_WARN ∧
    (debug_outputF 1 DEBUG_WARN "low battery".toList world_fresh =
        Result.done true { world_fresh with stdout :=
          (world_fresh.stdout ++ (resolved_tag DEBUG_WARN world_fresh.debug_colors ++ [' '] ++
            "low battery".toList ++ ['\n', '\r'])) } ∧
      ∀ fs opens mallocs closes, ∃ v,
        debugF 2 true DEBUG_INFO "value=%d".toList [printf_arg.int 42]
            (World.initial fs opens mallocs closes) = Result.done true v ∧
          v.stdout = "[\x1b[0;32mINFO\x1b[0m] value=42\n\r".toList) :=
  ⟨by decide, debug_output_line 0 true DEBUG_WARN "low battery".toList world_fresh (by decide)⟩

/-- C9: for every valid category and message, when the descriptor of the file sink is open, or
no descriptor is held and `open` succeeds, `debug_write` returns true and appends to the file
exactly `[`, the word of the level, `] `, the message and the two bytes `\n\r`; the word is INFO,
WARNING, ERROR or FATAL, the token before the message holds no escape byte, and no other file
changes. -/
theorem debug_write_entry (n : Nat) (dyn : Bool) (category : Int) (message : List Char)
    (w : World) (hv : valid_category category) :
    '\x1b' ∉ plain_tag (level_word category) ++ [' '] ∧
    (∀ p, w.debug_file.descriptor ≠ -1 → w.fds.lookup w.debug_file.descriptor = some p →
      ∃ v, debug_writeF (n + 1) dyn category message w = Result.done true v ∧
        v.fs p = w.fs p ++
          (plain_tag (level_word category) ++ [' '] ++ message ++ ['\n', '\r']) ∧
        ∀ q, q ≠ p → v.fs q = w.fs q) ∧
    (∀ fd rest, w.debug_file.descriptor = -1 → w.open_script = some fd :: rest →
      ∃ v, debug_writeF (n + 1) dyn category message w = Result.done true v ∧
        v.fs w.debug_file.path = w.fs w.debug_file.path ++
          (plain_tag (level_word category) ++ [' '] ++ message ++ ['\n', '\r']) ∧
        ∀ q, q ≠ w.debug_file.path → v.fs q = w.fs q) := by
  have he : file_entry category message =
      plain_tag (level_word category) ++ [' '] ++ message ++ ['\n', '\r'] := by
    rw [file_entry, file_token_eq category hv]
    simp
  refine ⟨?_, ?_, ?_⟩
  · rcases hv with h | h | h | h <;> subst h <;> decide
  · intro p hd hp
    refine ⟨_, debug_writeF_open n dyn category message w hv hd, ?_, ?_⟩
    · rw [appended_fs _ _ _ _ hp, he]
    · intro q hq
      exact appended_fs_other _ _ _ _ _ hp hq
  · intro fd rest hd hs
    refine ⟨_, debug_writeF_lazy n dyn category message w fd rest hv hd hs, ?_, ?_⟩
    · rw [appended_opened_fs, he]
    · intro q hq
      exact appended_opened_fs_other _ _ _ _ _ hq

theorem debug_write_entry_witness :
    valid_category DEBUG_WARN ∧
    '\x1b' ∉ plain_tag (level_word DEBUG_WARN) ++ [' '] ∧
    (∀ p, world_logging.debug_file.descriptor ≠ -1 →
      world_logging.fds.lookup world_logging.debug_file.descriptor = some p →
      ∃ v, debug_writeF 1 true DEBUG_WARN "low battery".toList world_logging =
          Result.done true v ∧
        v.fs p = world_logging.fs p ++
          (plain_tag (level_word DEBUG_WARN) ++ [' '] ++ "low battery".toList ++
            ['\n', '\r']) ∧
        ∀ q, q ≠ p → v.fs q = world_logging.fs q) ∧
    (∀ fd rest, world_logging.debug_file.descriptor = -1 →
      world_logging.open_script = some fd :: rest →
      ∃ v, debug_writeF 1 true DEBUG_WARN "low battery".toList world_logging =
          Result.done true v ∧
        v.fs world_logging.debug_file.path = world_logging.fs world_logging.debug_file.path ++
          (plain_tag (level_word DEBUG_WARN) ++ [' '] ++ "low battery".toList ++
            ['\n', '\r']) ∧
        ∀ q, q ≠ world_logging.debug_file.path → v.fs q = world_logging.fs q) :=
  ⟨by decide, debug_write_entry 0 true DEBUG_WARN "low battery".toList world_logging
    (by decide)⟩

/-- C10, evaluated on `debug_file_enable(); debug(DEBUG_INFO, "x"); debug_file_disable();` from
the state at process start, with `open` returning 3 and `close` succeeding: the three calls
return true, and afterwards the descriptor held is still 3, which is closed, so the handle is
neither unopened nor open.  After `debug_file_enable(); debug(DEBUG_INFO, "y");` the second
entry is not in the file although `debug` returned true. -/
theorem debug_file_disable_keeps_closed_descriptor :
    ∃ v, ((debug_file_enable world_fresh).andThen
          (debugF 3 true DEBUG_INFO "x".toList [])).andThen debug_file_disable =
        Result.done true v ∧
      v.debug_file.descriptor = 3 ∧ v.fds.lookup 3 = none ∧ ¬ handle_valid v ∧
      ∃ u, ((debug_file_enable v).andThen (debugF 3 true DEBUG_INFO "y".toList [])) =
          Result.done true u ∧
        u.fs u.debug_file.path = "[INFO] x\n\r".toList := by
  refine ⟨_, rfl, rfl, rfl, ?_, _, rfl, rfl⟩
  decide

theorem quiet_refl (w : World) : quiet w w := ⟨rfl, rfl, rfl, rfl, rfl, rfl⟩

theorem quiet_trans (a b c : World) (h1 : quiet a b) (h2 : quiet b c) : quiet a c := by
  rcases h1 with ⟨file1, colors1, fds1, fs1, opens1, closes1⟩
  rcases h2 with ⟨file2, colors2, fds2, fs2, opens2, closes2⟩
  exact ⟨by rw [file2, file1], by rw [colors2, colors1], by rw [fds2, fds1], by rw [fs2, fs1],
    by rw [opens2, opens1], by rw [closes2, closes1]⟩

/-- The terminal sink returns, at every category, and changes standard output only. -/
theorem debug_outputF_quiet (n : Nat) (category : Int) (message : List Char) (w : World) :
    ∃ b v, debug_outputF (n + 2) category message w = Result.done b v ∧ quiet w v := by
  by_cases hv : valid_category category
  · exact ⟨true, _, debug_outputF_valid (n + 1) category message w hv, quiet_refl w⟩
  · exact ⟨false, _, debug_outputF_invalid n category message w hv, quiet_refl w⟩

theorem dispatch_disabled (n : Nat) (dyn : Bool) (category : Int) (message : List Char)
    (w : World) (he : w.debug_file.enabled = false) :
    ∃ b v, dispatch (n + 2) dyn category message w = Result.done b v ∧ quiet w v := by
  obtain ⟨b, v, hr, hq⟩ := debug_outputF_quiet n category message w
  refine ⟨b, v, ?_, hq⟩
  have hev : v.debug_file.enabled = false := by rw [hq.1]; exact he
  simp only [dispatch, hr, hev]
  rfl

/-- With the file sink disabled, a self-diagnostic call of `debug` with one of the fixed texts
returns and changes standard output only. -/
theorem debugF_diagnostic_disabled (n : Nat) (dyn : Bool) (category : Int) (text : List Char)
    (w : World) (ht : vformat text [] = text) (hl : text.length ≤ 2047)
    (he : w.debug_file.enabled = false) :
    ∃ b v, debugF (n + 3) dyn category text [] w = Result.done b v ∧ quiet w v := by
  rw [debugF_fits _ _ _ _ _ _ (by rw [ht]; exact hl)]
  exact dispatch_disabled n dyn category _ w he

theorem quiet_malloc_script (w : World) (rest : List Bool) :
    quiet w { w with malloc_script := rest } := ⟨rfl, rfl, rfl, rfl, rfl, rfl⟩

theorem debug_format_disabled (n : Nat) (dyn : Bool) (message : List Char)
    (args : List printf_arg) (w : World) (he : w.debug_file.enabled = false) :
    ∃ mf on_heap w0,
      debug_format (fun c m a u => debugF (n + 3) dyn c m a u) dyn message args w =
        Formatted.ready mf on_heap w0 ∧ quiet w w0 := by
  unfold debug_format
  simp only
  by_cases hc : formatted_message_size message args > DEBUG_MESSAGE_SIZE ∧ dyn = true
  · rw [if_pos hc]
    cases hm : w.malloc_script with
    | nil =>
      obtain ⟨b, v, hr, hk⟩ := debugF_diagnostic_disabled n dyn DEBUG_WARN msg_allocation_failed
        w msg_allocation_failed_plain.1 msg_allocation_failed_plain.2 he
      simp only [malloc, hm, hr]
      exact ⟨_, _, _, rfl, hk⟩
    | cons ok rest =>
      cases ok with
      | false =>
        obtain ⟨b, v, hr, hk⟩ := debugF_diagnostic_disabled n dyn DEBUG_WARN
          msg_allocation_failed { w with malloc_script := rest }
          msg_allocation_failed_plain.1 msg_allocation_failed_plain.2 he
        simp only [malloc, hm, hr]
        exact ⟨_, _, _, rfl, quiet_trans _ _ _ (quiet_malloc_script w rest) hk⟩
      | true =>
        simp only [malloc, hm]
        exact ⟨_, _, _, rfl, quiet_malloc_script w rest⟩
  · rw [if_neg hc]
    exact ⟨_, _, _, rfl, quiet_refl w⟩

theorem finish_disabled (n : Nat) (dyn : Bool) (message : List Char) (args : List printf_arg)
    (on_heap outputted : Bool) (w : World) (he : w.debug_file.enabled = false) :
    ∃ v, (finish (n + 3) dyn message args on_heap outputted w).final = some v ∧ quiet w v := by
  unfold finish
  by_cases hc : formatted_message_size message args > DEBUG_MESSAGE_SIZE
  · rw [if_pos hc]
    by_cases hd : dyn = false
    · obtain ⟨b, v, hr, hk⟩ := debugF_diagnostic_disabled n dyn DEBUG_WARN msg_truncated w
        msg_truncated_plain.1 msg_truncated_plain.2 he
      rw [if_pos hd, hr]
      exact ⟨v, rfl, hk⟩
    · rw [if_neg hd]
      cases on_heap <;> exact ⟨w, rfl, quiet_refl w⟩
  · rw [if_neg hc]
    exact ⟨w, rfl, quiet_refl w⟩

/-- C11: in every state in which the file sink is disabled, for every category (valid or not)
and every message (of any length), the call of `debug` stops and has performed no `open` and no
write on the log file: the files, the open descriptors, the script of `open` and the whole
`debug_file` structure, the descriptor included, are the ones before the call. -/
theorem debug_file_disabled_untouched (n : Nat) (dyn : Bool) (category : Int)
    (message : List Char) (args : List printf_arg) (w : World)
    (he : w.debug_file.enabled = false) :
    ∃ v, (debugF (n + 4) dyn category message args w).final = some v ∧
      v.fs = w.fs ∧ v.debug_file = w.debug_file ∧ v.fds = w.fds ∧
      v.open_script = w.open_script := by
  obtain ⟨mf, heap, w0, hf, q0⟩ := debug_format_disabled n dyn message args w he
  have he0 : w0.debug_file.enabled = false := by rw [q0.1]; exact he
  obtain ⟨b, w2, hd, q2⟩ := dispatch_disabled (n + 1) dyn category mf w0 he0
  have he2 : w2.debug_file.enabled = false := by rw [q2.1]; exact he0
  obtain ⟨v, hfin, q3⟩ := finish_disabled n dyn message args heap b w2 he2
  obtain ⟨q1, _, q3', q4, q5, _⟩ := quiet_trans _ _ _ (quiet_trans _ _ _ q0 q2) q3
  refine ⟨v, ?_, q4, q1, q3', q5⟩
  rw [debugF_succ, hf]
  simp only
  rw [hd]
  exact hfin

theorem debug_file_disabled_untouched_witness :
    world_fresh.debug_file.enabled = false ∧
    ∃ v, (debugF 4 true 9 (List.replicate 3000 'z') [] world_fresh).final = some v ∧
      v.fs = world_fresh.fs ∧ v.debug_file = world_fresh.debug_file ∧
      v.fds = world_fresh.fds ∧ v.open_script = world_fresh.open_script :=
  ⟨rfl, debug_file_disabled_untouched 0 true 9 (List.replicate 3000 'z') [] world_fresh rfl⟩

/-- C12: for every category and message, when no descriptor is held and `open` fails,
`debug_write` returns false, still holds no descriptor (`-1`), has written nothing to any file
and opened nothing, and has reported the failure by the one line `debug_output` prints, called
directly at `DEBUG_ERROR`; the next call attempts `open` again, and when that succeeds it holds
the descriptor returned. -/
theorem debug_write_open_failure (n : Nat) (dyn : Bool) (category : Int) (message : List Char)
    (w : World) (hd : w.debug_file.descriptor = -1)
    (hs : ∀ fd rest, w.open_script ≠ some fd :: rest) :
    ∃ v, debug_writeF (n + 2) dyn category message w = Result.done false v ∧
      v.debug_file.descriptor = -1 ∧ v.fs = w.fs ∧ v.fds = w.fds ∧
      v.open_script = w.open_script.tail ∧
      debug_outputF (n + 1) DEBUG_ERROR msg_open_failed
        { w with open_script := w.open_script.tail } = Result.done true v ∧
      v.stdout = w.stdout ++
        terminal_line (debug_category_text_colored_error w.debug_colors) msg_open_failed ∧
      (valid_category category → ∀ fd rest, v.open_script = some fd :: rest →
        ∃ u, debug_writeF (n + 1) dyn category message v = Result.done true u ∧
          u.debug_file.descriptor = (fd : Int) ∧
          u.fds.lookup (fd : Int) = some w.debug_file.path) := by
  refine ⟨open_failed w, debug_writeF_open_fails n dyn category message w hd hs, hd, rfl, rfl,
    rfl, ?_, rfl, ?_⟩
  · rw [debug_outputF_valid n DEBUG_ERROR msg_open_failed _ valid_DEBUG_ERROR]
    rfl
  · intro hv fd rest hr
    refine ⟨_, debug_writeF_lazy n dyn category message (open_failed w) fd rest hv hd hr, ?_, ?_⟩
    · unfold appended
      split <;> rfl
    · unfold appended
      split <;> simp [opened, open_failed, List.lookup]

theorem debug_write_open_failure_witness :
    world_unwritable.debug_file.descriptor = -1 ∧
    (∀ fd rest, world_unwritable.open_script ≠ some fd :: rest) ∧
    ∃ v, debug_writeF 2 true DEBUG_INFO "x".toList world_unwritable = Result.done false v ∧
      v.debug_file.descriptor = -1 ∧ v.fs = world_unwritable.fs ∧
      v.fds = world_unwritable.fds ∧
      v.open_script = world_unwritable.open_script.tail ∧
      debug_outputF 1 DEBUG_ERROR msg_open_failed
        { world_unwritable with open_script := world_unwritable.open_script.tail } =
          Result.done true v ∧
      v.stdout = world_unwritable.stdout ++
        terminal_line (debug_category_text_colored_error world_unwritable.debug_colors)
          msg_open_failed ∧
      (valid_category DEBUG_INFO → ∀ fd rest, v.open_script = some fd :: rest →
        ∃ u, debug_writeF 1 true DEBUG_INFO "x".toList v = Result.done true u ∧
          u.debug_file.descriptor = (fd : Int) ∧
          u.fds.lookup (fd : Int) = some world_unwritable.debug_file.path) :=
  ⟨rfl, (fun _ _ h => Option.noConfusion (List.head_eq_of_cons_eq h)),
    debug_write_open_failure 0 true DEBUG_INFO "x".toList world_unwritable rfl
      (fun _ _ h => Option.noConfusion (List.head_eq_of_cons_eq h))⟩

theorem debug_set_fileF_too_long (fuel : Nat) (dyn : Bool) (PATH_MAX : Nat) (path : List Char)
    (w : World) (h : path.length ≥ PATH_MAX) :
    debug_set_fileF fuel dyn PATH_MAX path w =
      match debugF fuel dyn DEBUG_ERROR msg_path_length [] w with
      | Result.done _ w1 => Result.done false w1
      | r => r := by
  unfold debug_set_fileF
  exact (if_pos h).trans
    (by cases debugF fuel dyn DEBUG_ERROR msg_path_length [] w <;> rfl)

/-- C13, as stated, fails: with `PATH_MAX = 4096` and a path of 4096 bytes, from the state at
process start, `debug_set_file` returns false and the line it has printed is the one of
`debug(DEBUG_ERROR, ...)`, with the ERROR label; it is not the state a call of
`debug(DEBUG_WARN, ...)` with the same text leaves, and the line does not start with the WARNING
label. -/
theorem debug_set_file_not_warn :
    ∃ v, debug_set_fileF 3 true 4096 (List.replicate 4096 'a') world_fresh =
        Result.done false v ∧
      v.stdout = ("[\x1b[0;31mERROR\x1b[0m] Internal debug error: Invalid debug file path " ++
        "length was provided\n\r").toList ∧
      (debug_category_text_colored_warn world_fresh.debug_colors).isPrefixOf v.stdout = false ∧
      ¬ ∃ b, debugF 3 true DEBUG_WARN msg_path_length [] world_fresh = Result.done b v := by
  have h := debug_set_fileF_too_long 3 true 4096 (List.replicate 4096 'a') world_fresh
    (le_of_eq (List.length_replicate 4096 'a').symm)
  refine ⟨_, h, rfl, rfl, ?_⟩
  rintro ⟨b, hb⟩
  have hs : (Result.final (debugF 3 true DEBUG_WARN msg_path_length [] world_fresh)).map
      World.stdout = some ("[\x1b[0;33mWARNING\x1b[0m] Internal debug error: Invalid debug " ++
        "file path length was provided\n\r").toList := rfl
  rw [hb] at hs
  cases b <;> exact absurd hs (by decide)

/-- C13, amended: for every path of length at least `PATH_MAX`, `debug_set_file` returns false
and reports the failure through the dispatcher by a call of `debug` at `DEBUG_ERROR`, so the
terminal line it prints carries the ERROR label. -/
theorem debug_set_file_reports_error (n : Nat) (dyn : Bool) (PATH_MAX : Nat)
    (path : List Char) (w : World) (h : path.length ≥ PATH_MAX) :
    ∃ b u post, debugF (n + 3) dyn DEBUG_ERROR msg_path_length [] w = Result.done b u ∧
      debug_set_fileF (n + 3) dyn PATH_MAX path w = Result.done false u ∧
      u.stdout = w.stdout ++
        terminal_line (debug_category_text_colored_error w.debug_colors) msg_path_length ++
          post ∧
      lines_only post := by
  obtain ⟨b, u, post, hr, _, hs, hl⟩ := debugF_fits_keeps n dyn DEBUG_ERROR msg_path_length []
    w valid_DEBUG_ERROR (by rw [msg_path_length_plain.1]; exact msg_path_length_plain.2)
  rw [msg_path_length_plain.1] at hs
  refine ⟨b, u, post, hr, ?_, hs, hl⟩
  rw [debug_set_fileF_too_long _ _ _ _ _ h, hr]

theorem debug_set_file_reports_error_witness :
    (List.replicate 4096 'a').length ≥ 4096 ∧
    ∃ b u post, debugF 3 true DEBUG_ERROR msg_path_length [] world_fresh = Result.done b u ∧
      debug_set_fileF 3 true 4096 (List.replicate 4096 'a') world_fresh = Result.done false u ∧
      u.stdout = world_fresh.stdout ++
        terminal_line (debug_category_text_colored_error world_fresh.debug_colors)
          msg_path_length ++ post ∧
      lines_only post :=
  ⟨le_of_eq (List.length_replicate 4096 'a').symm,
    debug_set_file_reports_error 0 true 4096 (List.replicate 4096 'a') world_fresh
      (le_of_eq (List.length_replicate 4096 'a').symm)⟩

/-- C14, evaluated on `debug_file_enable(); debug(DEBUG_INFO, "x"); debug_file_disable();
debug_file_disable();` from the state at process start, with `open` returning 3 and `close`
succeeding: the first `debug_file_disable` returns true and leaves no descriptor open, yet still
holds 3; the second one, called with no handle open, passes 3 to `close` and returns false. -/
theorem debug_file_disable_twice_false :
    ∃ v, ((debug_file_enable world_fresh).andThen
          (debugF 3 true DEBUG_INFO "x".toList [])).andThen debug_file_disable =
        Result.done true v ∧
      v.debug_file.enabled = false ∧ v.fds.lookup v.debug_file.descriptor = none ∧
      (sys_close v.debug_file.descriptor v).1 = -1 ∧
      ∃ u, debug_file_disable v = Result.done false u := by
  exact ⟨_, rfl, rfl, rfl, rfl, _, rfl⟩

/-- C18: for every category outside the four enumerators and every message, `debug_output` calls
itself once, at `DEBUG_WARN` with the fixed text about the invalid category: a call stack of one
frame is not enough and two frames are; the inner call returns true after printing one line,
the WARNING label and the fixed text, whatever the message was; that line is all the outer call
adds to standard output, nothing else changes, and the outer call returns false. -/
theorem debug_output_invalid_category (n : Nat) (category : Int) (message : List Char)
    (w : World) (h : ¬ valid_category category) :
    debug_outputF 1 category message w = Result.out_of_fuel ∧
    ∃ v, debug_outputF (n + 1) DEBUG_WARN msg_invalid_category w = Result.done true v ∧
      debug_outputF (n + 2) category message w = Result.done false v ∧
      v = { w with stdout := (w.stdout ++
        terminal_line (debug_category_text_colored_warn w.debug_colors)
          msg_invalid_category) } := by
  have h1 : category ≠ DEBUG_INFO := fun e => h (Or.inl e)
  have h2 : category ≠ DEBUG_WARN := fun e => h (Or.inr (Or.inl e))
  have h3 : category ≠ DEBUG_ERROR := fun e => h (Or.inr (Or.inr (Or.inl e)))
  have h4 : category ≠ DEBUG_FATAL := fun e => h (Or.inr (Or.inr (Or.inr e)))
  refine ⟨?_, _, debug_outputF_valid n DEBUG_WARN msg_invalid_category w valid_DEBUG_WARN,
    debug_outputF_invalid n category message w h, rfl⟩
  rw [debug_outputF]
  simp only [h1, h2, h3, h4, if_false]
  rfl

theorem debug_output_invalid_category_witness :
    ¬ valid_category 4 ∧
    debug_outputF 1 4 "lost".toList world_fresh = Result.out_of_fuel ∧
    ∃ v, debug_outputF 1 DEBUG_WARN msg_invalid_category world_fresh = Result.done true v ∧
      debug_outputF 2 4 "lost".toList world_fresh = Result.done false v ∧
      v = { world_fresh with stdout := (world_fresh.stdout ++
        terminal_line (debug_category_text_colored_warn world_fresh.debug_colors)
          msg_invalid_category) } :=
  ⟨by decide, debug_output_invalid_category 0 4 "lost".toList world_fresh (by decide)⟩

theorem debug_outputF_printed (n : Nat) (category : Int) (message : List Char) (w : World)
    (h : valid_category category) :
    debug_outputF (n + 1) category message w = Result.done true (printed category message w) :=
  debug_outputF_valid n category message w h

theorem dispatch_printed (n : Nat) (dyn : Bool) (category : Int) (message : List Char)
    (w : World) (h : valid_category category) :
    dispatch (n + 1) dyn category message w =
      if w.debug_file.enabled then
        debug_writeF (n + 1) dyn category message (printed category message w)
      else Result.done true (printed category message w) := by
  simp only [dispatch, debug_outputF_printed n category message w h]
  rfl

/-- A logged message of at most 2047 bytes reaches the file an open descriptor refers to. -/
theorem debugF_logs_open (n : Nat) (dyn : Bool) (category : Int) (message : List Char)
    (args : List printf_arg) (w : World) (p : List Char) (hv : valid_category category)
    (hl : (vformat message args).length ≤ 2047) (he : w.debug_file.enabled = true)
    (hd : w.debug_file.descriptor ≠ -1) (hp : w.fds.lookup w.debug_file.descriptor = some p) :
    ∃ u, debugF (n + 2) dyn category message args w = Result.done true u ∧
      u.fs p = w.fs p ++ file_entry category (vformat message args) ∧
      ∀ q, q ≠ p → u.fs q = w.fs q := by
  rw [debugF_fits _ _ _ _ _ _ hl, dispatch_printed n dyn category _ w hv, if_pos he]
  refine ⟨_, debug_writeF_open n dyn category _ (printed category _ w) hv hd, ?_, ?_⟩
  · exact appended_fs _ _ _ (printed category _ w) hp
  · intro q hq
    exact appended_fs_other _ _ _ _ (printed category _ w) hp hq

/-- A logged message of at most 2047 bytes, when no descriptor is held and `open` succeeds,
reaches the file at the configured path. -/
theorem debugF_logs_lazy (n : Nat) (dyn : Bool) (category : Int) (message : List Char)
    (args : List printf_arg) (w : World) (fd : Nat) (rest : List (Option Nat))
    (hv : valid_category category) (hl : (vformat message args).length ≤ 2047)
    (he : w.debug_file.enabled = true) (hd : w.debug_file.descriptor = -1)
    (hs : w.open_script = some fd :: rest) :
    ∃ u, debugF (n + 2) dyn category message args w = Result.done true u ∧
      u.debug_file.descriptor = (fd : Int) ∧
      u.fds.lookup (fd : Int) = some w.debug_file.path ∧
      u.fs w.debug_file.path =
        w.fs w.debug_file.path ++ file_entry category (vformat message args) ∧
      ∀ q, q ≠ w.debug_file.path → u.fs q = w.fs q := by
  rw [debugF_fits _ _ _ _ _ _ hl, dispatch_printed n dyn category _ w hv, if_pos he]
  refine ⟨_, debug_writeF_lazy n dyn category _ (printed category _ w) fd rest hv hd hs,
    ?_, ?_, ?_, ?_⟩
  · unfold appended
    split <;> rfl
  · unfold appended
    split <;> simp [opened, printed, List.lookup]
  · exact appended_opened_fs fd rest _ (printed category _ w)
  · intro q hq
    exact appended_opened_fs_other fd rest _ q (printed category _ w) hq

/-- C16: for every path shorter than `PATH_MAX` and every state, `debug_set_file` returns true,
the stored path is exactly the given path, and the enabled flag, the descriptor, the open
descriptors, the files and standard output are unchanged; so while a descriptor is open, the
entries of following `debug` calls go to the file it was opened on and to no other, and when no
descriptor is held the next `open` is on the new path, which then receives the entry. -/
theorem debug_set_file_stores_path (fuel n : Nat) (dyn : Bool) (PATH_MAX : Nat)
    (path : List Char) (w : World) (h : path.length < PATH_MAX) :
    ∃ v, debug_set_fileF fuel dyn PATH_MAX path w = Result.done true v ∧
      v.debug_file.path = path ∧ v.debug_file.enabled = w.debug_file.enabled ∧
      v.debug_file.descriptor = w.debug_file.descriptor ∧ v.fds = w.fds ∧ v.fs = w.fs ∧
      v.stdout = w.stdout ∧
      (∀ category message args p, valid_category category →
        (vformat message args).length ≤ 2047 → w.debug_file.enabled = true →
        w.debug_file.descriptor ≠ -1 → w.fds.lookup w.debug_file.descriptor = some p →
        ∃ u, debugF (n + 2) dyn category message args v = Result.done true u ∧
          u.fs p = w.fs p ++ file_entry category (vformat message args) ∧
          ∀ q, q ≠ p → u.fs q = w.fs q) ∧
      (∀ category message args fd rest, valid_category category →
        (vformat message args).length ≤ 2047 → w.debug_file.enabled = true →
        w.debug_file.descriptor = -1 → w.open_script = some fd :: rest →
        ∃ u, debugF (n + 2) dyn category message args v = Result.done true u ∧
          u.fds.lookup (fd : Int) = some path ∧
          u.fs path = w.fs path ++ file_entry category (vformat message args)) := by
  have hn : ¬ path.length ≥ PATH_MAX := by omega
  have hp : strncpy path PATH_MAX = path := List.take_of_length_le (by omega)
  refine ⟨{ w with debug_file := { w.debug_file with path := path } }, ?_, rfl, rfl, rfl, rfl,
    rfl, rfl, ?_, ?_⟩
  · simp only [debug_set_fileF, hn, if_false, hp]
  · intro category message args p hv hl he hd hlk
    exact debugF_logs_open n dyn category message args
      { w with debug_file := { w.debug_file with path := path } } p hv hl he hd hlk
  · intro category message args fd rest hv hl he hd hs
    obtain ⟨u, hu, _, h2, h3, _⟩ := debugF_logs_lazy n dyn category message args
      { w with debug_file := { w.debug_file with path := path } } fd rest hv hl he hd hs
    exact ⟨u, hu, h2, h3⟩

theorem debug_set_file_stores_path_witness :
    "/tmp/new.log".toList.length < 4096 ∧
    ∃ v, debug_set_fileF 0 true 4096 "/tmp/new.log".toList world_logging = Result.done true v ∧
      v.debug_file.path = "/tmp/new.log".toList ∧
      v.debug_file.enabled = world_logging.debug_file.enabled ∧
      v.debug_file.descriptor = world_logging.debug_file.descriptor ∧
      v.fds = world_logging.fds ∧ v.fs = world_logging.fs ∧
      v.stdout = world_logging.stdout ∧
      (∀ category message args p, valid_category category →
        (vformat message args).length ≤ 2047 → world_logging.debug_file.enabled = true →
        world_logging.debug_file.descriptor ≠ -1 →
        world_logging.fds.lookup world_logging.debug_file.descriptor = some p →
        ∃ u, debugF 2 true category message args v = Result.done true u ∧
          u.fs p = world_logging.fs p ++ file_entry category (vformat message args) ∧
          ∀ q, q ≠ p → u.fs q = world_logging.fs q) ∧
      (∀ category message args fd rest, valid_category category →
        (vformat message args).length ≤ 2047 → world_logging.debug_file.enabled = true →
        world_logging.debug_file.descriptor = -1 →
        world_logging.open_script = some fd :: rest →
        ∃ u, debugF 2 true category message args v = Result.done true u ∧
          u.fds.lookup (fd : Int) = some "/tmp/new.log".toList ∧
          u.fs "/tmp/new.log".toList =
            world_logging.fs "/tmp/new.log".toList ++
              file_entry category (vformat message args)) :=
  ⟨by decide, debug_set_file_stores_path 0 0 true 4096 "/tmp/new.log".toList world_logging
    (by decide)⟩

theorem resolved_tag_warn (c : debug_colors_t) :
    resolved_tag DEBUG_WARN c = debug_category_text_colored_warn c := rfl

/-- The formatting part of `debug` after a failed `malloc`: the warning, then the fixed buffer. -/
theorem debug_format_fallback (self : Int → List Char → List printf_arg → World → Result)
    (message : List Char) (args : List printf_arg) (w : World) (b : Bool) (w2 : World)
    (hl : 2047 < (vformat message args).length)
    (hi : (vformat message args).length < 2147483647)
    (hm : ∀ rest, w.malloc_script ≠ true :: rest)
    (hr : self DEBUG_WARN msg_allocation_failed []
      { w with malloc_script := w.malloc_script.tail } = Result.done b w2) :
    debug_format self true message args w =
      Formatted.ready ((vformat message args).take 2047) false w2 := by
  have hc : formatted_message_size message args > DEBUG_MESSAGE_SIZE :=
    (formatted_message_size_long message args (by assumption) (by assumption)).1
  have h47 : vsnprintf DEBUG_MESSAGE_SIZE message args = (vformat message args).take 2047 := rfl
  obtain ⟨df, dc, out, fds, fs, os, ms, cs⟩ := w
  simp only at hm hr
  unfold debug_format
  simp only [hc, true_and, if_true, h47]
  match ms, hm, hr with
  | [], _, hr =>
    simp only [List.tail] at hr
    simp only [malloc, hr]
  | false :: rest, _, hr =>
    simp only [List.tail] at hr
    simp only [malloc, hr]
  | true :: rest, hm, _ => exact absurd rfl (hm rest)

/-- With dynamic allocation allowed, a text longer than 2047 bytes and a failing `malloc`, at a
valid category: `debug` warns, prints the first 2047 bytes, and stops at `free` of the fixed
buffer. -/
theorem debugF_malloc_fails (n : Nat) (category : Int) (message : List Char)
    (args : List printf_arg) (w : World) (hv : valid_category category)
    (hl : 2047 < (vformat message args).length)
    (hi : (vformat message args).length < 2147483647)
    (hm : ∀ rest, w.malloc_script ≠ true :: rest) :
    ∃ b w2 v post1 post2,
      debugF (n + 3) true DEBUG_WARN msg_allocation_failed []
        { w with malloc_script := w.malloc_script.tail } = Result.done b w2 ∧
      w2.stdout = w.stdout ++
        terminal_line (debug_category_text_colored_warn w.debug_colors)
          msg_allocation_failed ++ post1 ∧
      debugF (n + 4) true category message args w = Result.invalid_free v ∧
      v.stdout = w2.stdout ++
        terminal_line (resolved_tag category w.debug_colors)
          ((vformat message args).take 2047) ++ post2 := by
  obtain ⟨b, w2, post1, hr, hk, hs, _⟩ := debugF_fits_keeps n true DEBUG_WARN
    msg_allocation_failed [] { w with malloc_script := w.malloc_script.tail } valid_DEBUG_WARN
    (by rw [msg_allocation_failed_plain.1]; exact msg_allocation_failed_plain.2)
  rw [msg_allocation_failed_plain.1, resolved_tag_warn] at hs
  obtain ⟨b3, w3, post2, hd, _, hs3, _⟩ := dispatch_valid (n + 1) true category
    ((vformat message args).take 2047) w2 hv
  have hc : formatted_message_size message args > DEBUG_MESSAGE_SIZE :=
    (formatted_message_size_long message args (by assumption) (by assumption)).1
  have hf := debug_format_fallback (fun c m a u => debugF (n + 3) true c m a u) message args w
    b w2 hl hi hm hr
  refine ⟨b, w2, w3, post1, post2, hr, hs, ?_, ?_⟩
  · rw [debugF_succ, hf]
    simp only
    rw [hd]
    simp only [finish, hc, if_true, free_then_return]
    rfl
  · rw [hs3, hk.1]

/-- C15, evaluated on `debug(DEBUG_INFO, ...)` with a text of 2048 bytes in a state where
`malloc` fails: the warning about the failed allocation and the first 2047 bytes of the text are
printed, and then the call does not return: it reaches `free` on the fixed buffer, which
`malloc` did not return. -/
theorem debug_malloc_failure_invalid_free :
    ∃ b w2 v post1 post2,
      debugF 3 true DEBUG_WARN msg_allocation_failed []
        { world_no_memory with malloc_script := world_no_memory.malloc_script.tail } =
          Result.done b w2 ∧
      w2.stdout = world_no_memory.stdout ++
        terminal_line (debug_category_text_colored_warn world_no_memory.debug_colors)
          msg_allocation_failed ++ post1 ∧
      debugF 4 DEBUG_ALLOW_DYNAMIC_ALLOCATION DEBUG_INFO (List.replicate 2048 'a') []
        world_no_memory = Result.invalid_free v ∧
      v.stdout = w2.stdout ++
        terminal_line (resolved_tag DEBUG_INFO world_no_memory.debug_colors)
          ((vformat (List.replicate 2048 'a') []).take 2047) ++ post2 :=
  debugF_malloc_fails 0 DEBUG_INFO (List.replicate 2048 'a') [] world_no_memory (by decide)
    (lt_of_lt_of_eq (by decide) (length_vformat_replicate 2048).symm)
    (lt_of_eq_of_lt (length_vformat_replicate 2048) (by decide))
    (fun _ h => Bool.noConfusion (List.head_eq_of_cons_eq h))

/-- C17, amended: in the build without dynamic allocation, for every valid category and every
rendered text longer than 2047 bytes whose size, the length and the terminator, is an `int` (the
length is less than `INT_MAX`), `debug` hands the first 2047 bytes of the text to `debug_output`
and, when the file sink is enabled, to `debug_write`, and after that calls itself at
`DEBUG_WARN` with the text about the truncation, whose line is printed after the output of the
message; it returns what the last sink returned. -/
theorem debug_static_truncates (n : Nat) (category : Int) (message : List Char)
    (args : List printf_arg) (w : World) (hv : valid_category category)
    (hl : 2047 < (vformat message args).length)
    (hi : (vformat message args).length < 2147483647) :
    ∃ w1 b w2 b3 v post,
      debug_outputF (n + 3) category ((vformat message args).take 2047) w =
        Result.done true w1 ∧
      w1.stdout = w.stdout ++
        terminal_line (resolved_tag category w.debug_colors)
          ((vformat message args).take 2047) ∧
      (if w1.debug_file.enabled then
          debug_writeF (n + 3) false category ((vformat message args).take 2047) w1
        else Result.done true w1) = Result.done b w2 ∧
      debugF (n + 3) false DEBUG_WARN msg_truncated [] w2 = Result.done b3 v ∧
      debugF (n + 4) false category message args w = Result.done b v ∧
      v.stdout = w2.stdout ++
        terminal_line (debug_category_text_colored_warn w.debug_colors) msg_truncated ++
          post ∧
      lines_only post := by
  obtain ⟨b, w2, _, hd, hk, _, _⟩ := dispatch_valid (n + 1) false category
    ((vformat message args).take 2047) w hv
  obtain ⟨b3, v, post, hr, _, hs, hlp⟩ := debugF_fits_keeps n false DEBUG_WARN msg_truncated []
    w2 valid_DEBUG_WARN (by rw [msg_truncated_plain.1]; exact msg_truncated_plain.2)
  rw [msg_truncated_plain.1, resolved_tag_warn, hk.1] at hs
  have hc : formatted_message_size message args > DEBUG_MESSAGE_SIZE :=
    (formatted_message_size_long message args (by assumption) (by assumption)).1
  have hf : debug_format (fun c m a u => debugF (n + 3) false c m a u) false message args w =
      Formatted.ready ((vformat message args).take 2047) false w := by
    unfold debug_format
    simp only
    rw [if_neg (by simp)]
    rfl
  have hd2 := hd
  rw [dispatch_printed (n + 2) false category _ w hv] at hd2
  refine ⟨printed category ((vformat message args).take 2047) w, b, w2, b3, v, post,
    debug_outputF_printed (n + 2) category _ w hv, rfl, hd2, hr, ?_, hs, hlp⟩
  rw [debugF_succ, hf]
  simp only
  rw [hd]
  simp only [finish, hc, if_true, hr]

theorem debug_static_truncates_witness :
    valid_category DEBUG_FATAL ∧ 2047 < (vformat (List.replicate 3000 'a') []).length ∧
    (vformat (List.replicate 3000 'a') []).length < 2147483647 ∧
    ∃ w1 b w2 b3 v post,
      debug_outputF 3 DEBUG_FATAL ((vformat (List.replicate 3000 'a') []).take 2047)
        world_logging = Result.done true w1 ∧
      w1.stdout = world_logging.stdout ++
        terminal_line (resolved_tag DEBUG_FATAL world_logging.debug_colors)
          ((vformat (List.replicate 3000 'a') []).take 2047) ∧
      (if w1.debug_file.enabled then
          debug_writeF 3 false DEBUG_FATAL ((vformat (List.replicate 3000 'a') []).take 2047) w1
        else Result.done true w1) = Result.done b w2 ∧
      debugF 3 false DEBUG_WARN msg_truncated [] w2 = Result.done b3 v ∧
      debugF 4 false DEBUG_FATAL (List.replicate 3000 'a') [] world_logging = Result.done b v ∧
      v.stdout = w2.stdout ++
        terminal_line (debug_category_text_colored_warn world_logging.debug_colors)
          msg_truncated ++ post ∧
      lines_only post :=
  ⟨by decide, lt_of_lt_of_eq (by decide) (length_vformat_replicate 3000).symm,
    lt_of_eq_of_lt (length_vformat_replicate 3000) (by decide),
    debug_static_truncates 0 DEBUG_FATAL (List.replicate 3000 'a') [] world_logging (by decide)
      (lt_of_lt_of_eq (by decide) (length_vformat_replicate 3000).symm)
      (lt_of_eq_of_lt (length_vformat_replicate 3000) (by decide))⟩

theorem keeps_printed (category : Int) (message : List Char) (w : World) :
    keeps w (printed category message w) :=
  ⟨rfl, rfl, rfl, _, rfl, lines_only_terminal_line _ _⟩

theorem keeps_stdout (w : World) (out : List Char) (h : lines_only out) :
    keeps w { w with stdout := (w.stdout ++ out) } :=
  ⟨rfl, rfl, rfl, out, rfl, h⟩

/-- A self-diagnostic call of `debug` in a state that holds a descriptor needs no more than the
frames of the two sinks. -/
theorem debugF_diagnostic_held (n : Nat) (dyn : Bool) (category : Int) (text : List Char)
    (w : World) (hv : valid_category category) (ht : vformat text [] = text)
    (hl : text.length ≤ 2047) (hd : w.debug_file.descriptor ≠ -1) :
    ∃ v, debugF (n + 2) dyn category text [] w = Result.done true v ∧ keeps w v := by
  rw [debugF_fits _ _ _ _ _ _ (by rw [ht]; exact hl), dispatch_printed n dyn category _ w hv]
  by_cases he : w.debug_file.enabled = true
  · rw [if_pos he]
    exact ⟨_, debug_writeF_open n dyn category _ (printed category _ w) hv hd,
      keeps_trans _ _ _ (keeps_printed category _ w) (keeps_appended _ _ _)⟩
  · rw [if_neg he]
    exact ⟨_, rfl, keeps_printed category _ w⟩

/-- The file sink at a category outside the four enumerators returns false. -/
theorem debug_writeF_invalid (n : Nat) (dyn : Bool) (category : Int) (message : List Char)
    (w : World) (h : ¬ valid_category category) :
    ∃ v, debug_writeF (n + 3) dyn category message w = Result.done false v ∧ keeps w v := by
  have h1 : category ≠ DEBUG_INFO := fun e => h (Or.inl e)
  have h2 : category ≠ DEBUG_WARN := fun e => h (Or.inr (Or.inl e))
  have h3 : category ≠ DEBUG_ERROR := fun e => h (Or.inr (Or.inr (Or.inl e)))
  have h4 : category ≠ DEBUG_FATAL := fun e => h (Or.inr (Or.inr (Or.inr e)))
  by_cases hd : w.debug_file.descriptor = -1
  · by_cases hs : ∃ fd rest, w.open_script = some fd :: rest
    · obtain ⟨fd, rest, hs⟩ := hs
      have hfd : ¬ ((fd : Int) = -1) := by omega
      obtain ⟨v, hr, hk⟩ := debugF_diagnostic_held n dyn DEBUG_WARN msg_invalid_category
        (opened fd rest w) valid_DEBUG_WARN msg_invalid_category_plain.1
        msg_invalid_category_plain.2 hfd
      refine ⟨v, ?_, keeps_trans _ _ _ (keeps_opened fd rest w) hk⟩
      rw [debug_writeF]
      simp only [hd, sys_open, hs, if_true, true_and, hfd, if_false, h1, h2, h3, h4]
      exact (congrArg (fun r => match r with
        | Result.done _ w2 => Result.done false w2
        | r => r) hr)
    · exact ⟨_, debug_writeF_open_fails (n + 1) dyn category message w hd
        (fun fd rest e => hs ⟨fd, rest, e⟩), keeps_open_failed w⟩
  · obtain ⟨v, hr, hk⟩ := debugF_diagnostic_held n dyn DEBUG_WARN msg_invalid_category
      w valid_DEBUG_WARN msg_invalid_category_plain.1 msg_invalid_category_plain.2 hd
    refine ⟨v, ?_, hk⟩
    rw [debug_writeF]
    simp only [hd, if_false, false_and, h1, h2, h3, h4, hr]

/-- The dispatch to the sinks returns, at every category. -/
theorem dispatch_total (n : Nat) (dyn : Bool) (category : Int) (message : List Char)
    (w : World) :
    ∃ b v, dispatch (n + 3) dyn category message w = Result.done b v ∧ keeps w v ∧
      (¬ valid_category category → b = false) := by
  by_cases hv : valid_category category
  · obtain ⟨b, v, _, hd, hk, _⟩ := dispatch_valid (n + 1) dyn category message w hv
    exact ⟨b, v, hd, hk, fun h => absurd hv h⟩
  · have ho := debug_outputF_invalid (n + 1) category message w hv
    by_cases he : w.debug_file.enabled = true
    · obtain ⟨v, hr, hk⟩ := debug_writeF_invalid n dyn category message
        { w with stdout := (w.stdout ++
          terminal_line (debug_category_text_colored_warn w.debug_colors)
            msg_invalid_category) } hv
      refine ⟨false, v, ?_, keeps_trans _ _ _
        (keeps_stdout w _ (lines_only_terminal_line _ _)) hk, fun _ => rfl⟩
      simp only [dispatch, ho, he, if_true]
      exact hr
    · refine ⟨false, _, ?_, keeps_stdout w
        (terminal_line (debug_category_text_colored_warn w.debug_colors) msg_invalid_category)
        (lines_only_terminal_line _ _), fun _ => rfl⟩
      simp only [dispatch, ho, he]
      rfl

/-- A call of `debug` stops whatever the category, the message and the environment: a call stack
of four frames is enough. -/
theorem debugF_total (n : Nat) (dyn : Bool) (category : Int) (message : List Char)
    (args : List printf_arg) (w : World) :
    ∃ v, (debugF (n + 4) dyn category message args w).final = some v ∧ keeps w v := by
  obtain ⟨mf, heap, w0, hf, k0, _⟩ := debug_format_ready n dyn message args w
  obtain ⟨b, w2, hd, k2, _⟩ := dispatch_total n dyn category mf w0
  obtain ⟨v, hfin, k3⟩ := finish_keeps n dyn message args heap b w2
  refine ⟨v, ?_, keeps_trans _ _ _ (keeps_trans _ _ _ k0 k2) k3⟩
  rw [debugF_succ, hf]
  simp only
  rw [hd]
  exact hfin

/-- With dynamic allocation allowed, a text longer than 2047 bytes and a failing `malloc`, the
call of `debug` ends at `free` of the fixed buffer, at every category. -/
theorem debugF_malloc_fails_any (n : Nat) (category : Int) (message : List Char)
    (args : List printf_arg) (w : World) (hl : 2047 < (vformat message args).length)
    (hi : (vformat message args).length < 2147483647)
    (hm : ∀ rest, w.malloc_script ≠ true :: rest) :
    ∃ v, debugF (n + 4) true category message args w = Result.invalid_free v := by
  obtain ⟨b, w2, hr, _⟩ := debugF_diagnostic n true DEBUG_WARN msg_allocation_failed
    { w with malloc_script := w.malloc_script.tail } valid_DEBUG_WARN
    msg_allocation_failed_plain.1 msg_allocation_failed_plain.2
  have hf := debug_format_fallback (fun c m a u => debugF (n + 3) true c m a u) message args w
    b w2 hl hi hm hr
  obtain ⟨b3, w3, hd, _, _⟩ := dispatch_total n true category
    ((vformat message args).take 2047) w2
  have hc : formatted_message_size message args > DEBUG_MESSAGE_SIZE :=
    (formatted_message_size_long message args (by assumption) (by assumption)).1
  refine ⟨w3, ?_⟩
  rw [debugF_succ, hf]
  simp only
  rw [hd]
  simp only [finish, hc, if_true, free_then_return]
  rfl

/-- C20, evaluated on `debug(7, ...)` with a text of 2048 bytes in a state where `malloc` fails:
the call does not return false, it does not return: it reaches `free` on the fixed buffer. -/
theorem debug_invalid_category_invalid_free :
    ¬ valid_category 7 ∧
    ∃ v, debugF 4 DEBUG_ALLOW_DYNAMIC_ALLOCATION 7 (List.replicate 2048 'a') []
        world_no_memory = Result.invalid_free v ∧
      (debugF 4 DEBUG_ALLOW_DYNAMIC_ALLOCATION 7 (List.replicate 2048 'a') []
        world_no_memory).ret = none := by
  obtain ⟨v, hv⟩ := debugF_malloc_fails_any 0 7 (List.replicate 2048 'a') [] world_no_memory
    (lt_of_lt_of_eq (by decide) (length_vformat_replicate 2048).symm)
    (lt_of_eq_of_lt (length_vformat_replicate 2048) (by decide))
    (fun _ h => Bool.noConfusion (List.head_eq_of_cons_eq h))
  refine ⟨by decide, v, hv, ?_⟩
  have hd : DEBUG_ALLOW_DYNAMIC_ALLOCATION = true := rfl
  rw [hd, hv]
  rfl

theorem debug_outputD_fst (fuel : Nat) (category : Int) (message : List Char) (w : World) :
    (debug_outputD fuel category message w).1 = debug_outputF fuel category message w := by
  induction fuel generalizing category message w with
  | zero => rfl
  | succ n ih =>
    rw [debug_outputD, debug_outputF]
    split_ifs <;> first | rfl | skip
    simp only [ih]

theorem debug_formatD_fst (selfD : Int → List Char → List printf_arg → World → Result × Nat)
    (self : Int → List Char → List printf_arg → World → Result)
    (h : ∀ c m a v, (selfD c m a v).1 = self c m a v)
    (dyn : Bool) (message : List Char) (args : List printf_arg) (w : World) :
    (debug_formatD selfD dyn message args w).1 = debug_format self dyn message args w := by
  unfold debug_formatD debug_format
  simp only
  split_ifs
  · cases hm : malloc (formatted_message_size message args).toNat w with
    | mk ok w1 =>
      cases ok with
      | true => rfl
      | false =>
        simp only [h]
  · rfl

theorem debugD_fst_both (fuel : Nat) :
    (∀ dyn category message args w,
      (debugD fuel dyn category message args w).1 = debugF fuel dyn category message args w) ∧
    (∀ dyn category message w,
      (debug_writeD fuel dyn category message w).1 = debug_writeF fuel dyn category message w) := by
  induction fuel with
  | zero => exact ⟨fun _ _ _ _ _ => rfl, fun _ _ _ _ => rfl⟩
  | succ n ih =>
    obtain ⟨ihd, ihw⟩ := ih
    constructor
    · intro dyn category message args w
      have hf := debug_formatD_fst (fun c m a v => debugD n dyn c m a v)
        (fun c m a v => debugF n dyn c m a v) (fun c m a v => ihd dyn c m a v) dyn message args w
      rw [debugD, debugF]
      simp only [hf]
      cases debug_format (fun c m a v => debugF n dyn c m a v) dyn message args w with
      | stopped r => rfl
      | ready mf heap w0 =>
        simp only [debug_outputD_fst]
        cases debug_outputF n category mf w0 with
        | invalid_free u => rfl
        | out_of_fuel => rfl
        | done o w1 =>
          simp only
          cases he : w1.debug_file.enabled with
          | true =>
            simp only [if_true, ihw]
            cases debug_writeF n dyn category mf w1 with
            | invalid_free u => rfl
            | out_of_fuel => rfl
            | done o2 w2 =>
              simp only
              by_cases hc : formatted_message_size message args > DEBUG_MESSAGE_SIZE
              · simp only [hc, if_true]
                cases dyn with
                | false =>
                  simp only [if_true, ihd]
                | true => rfl
              · simp only [hc, if_false]
          | false =>
            simp only [Bool.false_eq_true, if_false]
            by_cases hc : formatted_message_size message args > DEBUG_MESSAGE_SIZE
            · simp only [hc, if_true]
              cases dyn with
              | false =>
                simp only [if_true, ihd]
              | true => rfl
            · simp only [hc, if_false]
    · intro dyn category message w
      rw [debug_writeD, debug_writeF]
      simp only
      split_ifs <;> first | rfl | simp only [debug_outputD_fst, ihd]

theorem debug_outputD_valid (n : Nat) (category : Int) (message : List Char) (w : World)
    (h : valid_category category) :
    debug_outputD (n + 1) category message w =
      (Result.done true (printed category message w), 0) := by
  rcases h with h | h | h | h <;> subst h <;>
    simp [debug_outputD, printf, vformat_line, resolved_tag, printed, DEBUG_INFO, DEBUG_WARN,
      DEBUG_ERROR, DEBUG_FATAL]

theorem debug_outputD_depth_valid (fuel : Nat) (category : Int) (message : List Char)
    (w : World) (h : valid_category category) :
    (debug_outputD fuel category message w).2 = 0 := by
  cases fuel with
  | zero => rfl
  | succ n => rw [debug_outputD_valid n category message w h]

theorem debug_outputD_depth_le (fuel : Nat) (category : Int) (message : List Char)
    (w : World) : (debug_outputD fuel category message w).2 ≤ 1 := by
  cases fuel with
  | zero => exact Nat.zero_le 1
  | succ n =>
    by_cases h : valid_category category
    · rw [debug_outputD_depth_valid _ _ _ _ h]
      exact Nat.zero_le 1
    · have h1 : category ≠ DEBUG_INFO := fun e => h (Or.inl e)
      have h2 : category ≠ DEBUG_WARN := fun e => h (Or.inr (Or.inl e))
      have h3 : category ≠ DEBUG_ERROR := fun e => h (Or.inr (Or.inr (Or.inl e)))
      have h4 : category ≠ DEBUG_FATAL := fun e => h (Or.inr (Or.inr (Or.inr e)))
      rw [debug_outputD]
      simp only [h1, h2, h3, h4, if_false]
      rw [debug_outputD_depth_valid n DEBUG_WARN msg_invalid_category w valid_DEBUG_WARN]

theorem debug_writeD_depth_held (fuel : Nat) (dyn : Bool) (category : Int)
    (message : List Char) (w : World) (h : valid_category category)
    (hd : w.debug_file.descriptor ≠ -1) :
    (debug_writeD fuel dyn category message w).2 = 0 := by
  cases fuel with
  | zero => rfl
  | succ n =>
    rw [debug_writeD]
    simp only [hd, if_false, false_and]
    rcases h with h | h | h | h <;> subst h <;>
      simp [DEBUG_INFO, DEBUG_WARN, DEBUG_ERROR, DEBUG_FATAL]

theorem debug_formatD_fits (self : Int → List Char → List printf_arg → World → Result × Nat)
    (dyn : Bool) (message : List Char) (args : List printf_arg) (w : World)
    (h : (vformat message args).length ≤ 2047) :
    debug_formatD self dyn message args w =
      (Formatted.ready (vformat message args) false w, 0) := by
  have hc : ¬ (formatted_message_size message args > DEBUG_MESSAGE_SIZE) :=
    formatted_message_size_fits message args (by assumption)
  have ht : vsnprintf DEBUG_MESSAGE_SIZE message args = vformat message args := by
    simp only [vsnprintf, DEBUG_MESSAGE_SIZE]
    exact List.take_of_length_le (by omega)
  simp only [debug_formatD, hc, false_and, if_false, ht]

theorem debug_writeD_depth_valid (fuel : Nat) (dyn : Bool) (category : Int)
    (message : List Char) (w : World) (h : valid_category category) :
    (debug_writeD fuel dyn category message w).2 ≤ 1 := by
  cases fuel with
  | zero => exact Nat.zero_le 1
  | succ n =>
    rw [debug_writeD]
    simp only
    split_ifs
    all_goals first
      | exact Nat.zero_le 1
      | (simp only [debug_outputD_depth_valid _ DEBUG_ERROR msg_open_failed _
          valid_DEBUG_ERROR]
         exact Nat.le_refl 1)
      | (rcases h with h | h | h | h <;> contradiction)

theorem debugD_depth_fits_eq (n : Nat) (dyn : Bool) (category : Int) (message : List Char)
    (args : List printf_arg) (w : World) (hv : valid_category category)
    (hl : (vformat message args).length ≤ 2047) :
    (debugD (n + 2) dyn category message args w).2 =
      if w.debug_file.enabled then
        (debug_writeD (n + 1) dyn category (vformat message args)
          (printed category (vformat message args) w)).2
      else 0 := by
  have hc : ¬ (formatted_message_size message args > DEBUG_MESSAGE_SIZE) :=
    formatted_message_size_fits message args (by assumption)
  have he : (printed category (vformat message args) w).debug_file.enabled =
      w.debug_file.enabled := rfl
  rw [debugD]
  simp only [debug_formatD_fits _ _ _ _ _ hl, debug_outputD_valid n category _ w hv, he, hc,
    if_false]
  cases w.debug_file.enabled with
  | false => simp
  | true =>
    simp only [if_true]
    generalize debug_writeD (n + 1) dyn category (vformat message args)
      (printed category (vformat message args) w) = s
    obtain ⟨s1, s2⟩ := s
    cases s1 <;> simp

theorem debugD_depth_fits (fuel : Nat) (dyn : Bool) (category : Int) (message : List Char)
    (args : List printf_arg) (w : World) (hv : valid_category category)
    (hl : (vformat message args).length ≤ 2047) :
    (debugD fuel dyn category message args w).2 ≤ 1 ∧
      (w.debug_file.descriptor ≠ -1 → (debugD fuel dyn category message args w).2 = 0) := by
  match fuel with
  | 0 => exact ⟨Nat.zero_le 1, fun _ => rfl⟩
  | 1 =>
    have h0 : (debugD 1 dyn category message args w).2 = 0 := by
      rw [debugD]
      simp [debug_formatD_fits _ _ _ _ _ hl, debug_outputD]
    rw [h0]
    exact ⟨Nat.zero_le 1, fun _ => rfl⟩
  | n + 2 =>
    rw [debugD_depth_fits_eq n dyn category message args w hv hl]
    constructor
    · split_ifs
      · exact debug_writeD_depth_valid _ _ _ _ _ hv
      · exact Nat.zero_le 1
    · intro hd
      split_ifs
      · exact debug_writeD_depth_held _ _ _ _ _ hv hd
      · rfl

theorem debug_writeD_depth_le (fuel : Nat) (dyn : Bool) (category : Int)
    (message : List Char) (w : World) :
    (debug_writeD fuel dyn category message w).2 ≤ 1 := by
  by_cases hv : valid_category category
  · exact debug_writeD_depth_valid fuel dyn category message w hv
  · have h1 : category ≠ DEBUG_INFO := fun e => hv (Or.inl e)
    have h2 : category ≠ DEBUG_WARN := fun e => hv (Or.inr (Or.inl e))
    have h3 : category ≠ DEBUG_ERROR := fun e => hv (Or.inr (Or.inr (Or.inl e)))
    have h4 : category ≠ DEBUG_FATAL := fun e => hv (Or.inr (Or.inr (Or.inr e)))
    cases fuel with
    | zero => exact Nat.zero_le 1
    | succ n =>
      rw [debug_writeD]
      simp only [h1, h2, h3, h4, if_false]
      by_cases hd : w.debug_file.descriptor = -1
      · simp only [hd, if_true, true_and]
        split_ifs with ho
        · simp only [debug_outputD_depth_valid n DEBUG_ERROR msg_open_failed _
            valid_DEBUG_ERROR]
          exact Nat.le_refl 1
        · have h0 := (debugD_depth_fits n dyn DEBUG_WARN msg_invalid_category []
            { (sys_open w.debug_file.path w).2 with
              debug_file := { (sys_open w.debug_file.path w).2.debug_file with
                descriptor := (sys_open w.debug_file.path w).1 } }
            valid_DEBUG_WARN
            (by rw [msg_invalid_category_plain.1]; exact msg_invalid_category_plain.2)).2 ho
          simp only [h0]
          exact Nat.le_refl 1
      · simp only [hd, if_false, false_and]
        have h0 := (debugD_depth_fits n dyn DEBUG_WARN msg_invalid_category [] w
          valid_DEBUG_WARN
          (by rw [msg_invalid_category_plain.1]; exact msg_invalid_category_plain.2)).2 hd
        simp only [h0]
        exact Nat.le_refl 1

theorem debug_formatD_depth_le (n : Nat) (dyn : Bool) (message : List Char)
    (args : List printf_arg) (w : World) :
    (debug_formatD (fun c m a v => debugD n dyn c m a v) dyn message args w).2 ≤ 2 := by
  unfold debug_formatD
  simp only
  split_ifs
  · cases hm : malloc (formatted_message_size message args).toNat w with
    | mk ok w1 =>
      cases ok with
      | true => exact Nat.zero_le 2
      | false =>
        have h1 := (debugD_depth_fits n dyn DEBUG_WARN msg_allocation_failed [] w1
          valid_DEBUG_WARN
          (by rw [msg_allocation_failed_plain.1]; exact msg_allocation_failed_plain.2)).1
        simp only
        omega
  · exact Nat.zero_le 2

/-- The self-diagnostic calls of `debug` are nested at most two deep. -/
theorem debugD_depth_le (fuel : Nat) (dyn : Bool) (category : Int) (message : List Char)
    (args : List printf_arg) (w : World) :
    (debugD fuel dyn category message args w).2 ≤ 2 := by
  cases fuel with
  | zero => exact Nat.zero_le 2
  | succ n =>
    rw [debugD]
    simp only
    have hf2 := debug_formatD_depth_le n dyn message args w
    generalize debug_formatD (fun c m a v => debugD n dyn c m a v) dyn message args w = f
      at hf2 ⊢
    obtain ⟨f1, f2⟩ := f
    simp only at hf2 ⊢
    cases f1 with
    | stopped r => exact hf2
    | ready mf heap w0 =>
      simp only
      have ho2 := debug_outputD_depth_le n category mf w0
      generalize debug_outputD n category mf w0 = o at ho2 ⊢
      obtain ⟨o1, o2⟩ := o
      simp only at ho2 ⊢
      cases o1 with
      | invalid_free u => simp only; omega
      | out_of_fuel => simp only; omega
      | done outputted w1 =>
        simp only
        have hs2 : (if w1.debug_file.enabled = true then
            debug_writeD n dyn category mf w1 else (Result.done outputted w1, 0)).2 ≤ 1 := by
          split_ifs
          · exact debug_writeD_depth_le n dyn category mf w1
          · exact Nat.zero_le 1
        generalize (if w1.debug_file.enabled = true then
            debug_writeD n dyn category mf w1 else (Result.done outputted w1, 0)) = s at hs2 ⊢
        obtain ⟨s1, s2⟩ := s
        simp only at hs2 ⊢
        cases s1 with
        | invalid_free u => simp only; omega
        | out_of_fuel => simp only; omega
        | done o3 w2 =>
          simp only
          have ht := (debugD_depth_fits n dyn DEBUG_WARN msg_truncated [] w2 valid_DEBUG_WARN
            (by rw [msg_truncated_plain.1]; exact msg_truncated_plain.2)).1
          split_ifs <;> simp only <;> omega

/-- C19: for every state, category (valid or not), message and outcome of `malloc`, `open` and
`close`, a call of `debug` stops: a call stack of four frames of `debug`, `debug_output` and
`debug_write` is enough, whatever more is allowed; its self-diagnostic calls are nested at most
two deep; and every self-diagnostic call is at `DEBUG_WARN` or `DEBUG_ERROR`, which are valid
categories, with a fixed text of at most 2047 bytes that has no conversion. -/
theorem debug_terminates (n : Nat) (dyn : Bool) (category : Int) (message : List Char)
    (args : List printf_arg) (w : World) :
    (∃ v, (debugF (n + 4) dyn category message args w).final = some v) ∧
      debugF (n + 4) dyn category message args w ≠ Result.out_of_fuel ∧
      (debugD (n + 4) dyn category message args w).1 =
        debugF (n + 4) dyn category message args w ∧
      (debugD (n + 4) dyn category message args w).2 ≤ 2 ∧
      (debugD 4 true 7 "x".toList [] world_fresh).2 = 1 ∧
      valid_category DEBUG_WARN ∧ valid_category DEBUG_ERROR ∧
      ∀ text ∈ [msg_invalid_category, msg_allocation_failed, msg_truncated, msg_path_length,
          msg_open_failed], vformat text [] = text ∧ text.length ≤ 2047 := by
  obtain ⟨v, hv, _⟩ := debugF_total n dyn category message args w
  refine ⟨⟨v, hv⟩, ?_, (debugD_fst_both (n + 4)).1 dyn category message args w,
    debugD_depth_le (n + 4) dyn category message args w, by decide, valid_DEBUG_WARN,
    valid_DEBUG_ERROR, by decide⟩
  intro h
  rw [h] at hv
  exact Option.noConfusion hv

/-- At a category outside the four enumerators, a call of `debug` that returns returns false. -/
theorem debugF_invalid_false (n : Nat) (dyn : Bool) (category : Int) (message : List Char)
    (args : List printf_arg) (w : World) (b : Bool) (v : World)
    (hv : ¬ valid_category category)
    (h : debugF (n + 4) dyn category message args w = Result.done b v) : b = false := by
  obtain ⟨mf, heap, w0, hf, _, _⟩ := debug_format_ready n dyn message args w
  obtain ⟨b2, w2, hd, _, hb⟩ := dispatch_total n dyn category mf w0
  rw [debugF_succ, hf] at h
  simp only at h
  rw [hd] at h
  simp only at h
  rw [finish_done _ _ _ _ _ _ _ _ _ h]
  exact hb hv

theorem vformat_replicate (k : Nat) : vformat (List.replicate k 'a') [] = List.replicate k 'a' :=
  vformat_plain _ _ (fun h => absurd (List.eq_of_mem_replicate h) (by decide))

/-- A text whose size is not an `int`: the formatting part of `debug` takes the fixed buffer and
calls neither `malloc` nor itself. -/
theorem debug_format_overflow (self : Int → List Char → List printf_arg → World → Result)
    (dyn : Bool) (message : List Char) (args : List printf_arg) (w : World)
    (h : 2147483647 ≤ (vformat message args).length) :
    debug_format self dyn message args w =
      Formatted.ready ((vformat message args).take 2047) false w := by
  have hc := formatted_message_size_overflow message args h
  unfold debug_format
  rw [if_neg (fun hcd => hc hcd.1)]
  rfl

/-- A text whose size is not an `int`: `debug` is the dispatch of the first 2047 bytes, with no
`malloc`, no warning and no `free`. -/
theorem debugF_overflow (n : Nat) (dyn : Bool) (category : Int) (message : List Char)
    (args : List printf_arg) (w : World)
    (h : 2147483647 ≤ (vformat message args).length) :
    debugF (n + 1) dyn category message args w =
      dispatch n dyn category ((vformat message args).take 2047) w := by
  have hc := formatted_message_size_overflow message args h
  rw [debugF_succ, debug_format_overflow _ _ _ _ _ h]
  simp only
  cases dispatch n dyn category ((vformat message args).take 2047) w with
  | done o v => simp only [finish, hc, if_false]
  | invalid_free v => rfl
  | out_of_fuel => rfl

theorem printed_stdout (category : Int) (message : List Char) (w : World) :
    (printed category message w).stdout =
      w.stdout ++ terminal_line (resolved_tag category w.debug_colors) message := rfl

theorem printed_malloc_script (category : Int) (message : List Char) (w : World) :
    (printed category message w).malloc_script = w.malloc_script := rfl

theorem printed_replicate_ne (category : Int) (w : World) (k j : Nat) (h : k ≠ j) :
    (printed category (List.replicate k 'a') w).stdout ≠
      w.stdout ++ terminal_line (resolved_tag category w.debug_colors) (List.replicate j 'a') := by
  intro he
  have hlen := congrArg List.length he
  rw [printed_stdout] at hlen
  simp only [terminal_line, List.length_append, List.length_cons, List.length_replicate,
    List.length_nil] at hlen
  omega

theorem printed_replicate_alone (category : Int) (w : World) (k : Nat) (tag text post : List Char) :
    (printed category (List.replicate k 'a') w).stdout ≠
      w.stdout ++ terminal_line (resolved_tag category w.debug_colors) (List.replicate k 'a') ++
        terminal_line tag text ++ post := by
  intro he
  have hlen := congrArg List.length he
  rw [printed_stdout] at hlen
  simp only [terminal_line, List.length_append, List.length_cons, List.length_replicate,
    List.length_nil] at hlen
  omega

theorem debugF_overflow_replicate (n : Nat) (dyn : Bool) (category : Int) (k : Nat)
    (w : World) (hv : valid_category category) (hk : 2147483647 ≤ k)
    (he : w.debug_file.enabled = false) :
    debugF (n + 2) dyn category (List.replicate k 'a') [] w =
      Result.done true (printed category (List.replicate 2047 'a') w) := by
  have ht : (vformat (List.replicate k 'a') []).take 2047 = List.replicate 2047 'a' := by
    rw [vformat_replicate, List.take_replicate, Nat.min_eq_left (by omega)]
  rw [debugF_overflow _ _ _ _ _ _ (by rw [length_vformat_replicate]; exact hk), ht,
    dispatch_printed n dyn category _ w hv, he]
  rfl

/-- C5, as stated, fails: at `DEBUG_INFO`, with a text of 2147483648 bytes (longer than 2047)
and `malloc` ready to succeed, `debug` returns true without having called `malloc`, and what
`debug_output` has printed is the label and the first 2047 bytes, not the whole text. -/
theorem debug_long_message_not_verbatim :
    valid_category DEBUG_INFO ∧ 2047 < (vformat (List.replicate 2147483648 'a') []).length ∧
    world_fresh.malloc_script = [true] ∧
    ∃ v, debugF 3 DEBUG_ALLOW_DYNAMIC_ALLOCATION DEBUG_INFO (List.replicate 2147483648 'a') []
        world_fresh = Result.done true v ∧
      v.malloc_script = [true] ∧
      v.stdout = world_fresh.stdout ++
        terminal_line (resolved_tag DEBUG_INFO world_fresh.debug_colors)
          (List.replicate 2047 'a') ∧
      v.stdout ≠ world_fresh.stdout ++
        terminal_line (resolved_tag DEBUG_INFO world_fresh.debug_colors)
          (vformat (List.replicate 2147483648 'a') []) := by
  refine ⟨by decide, ?_, rfl, printed DEBUG_INFO (List.replicate 2047 'a') world_fresh,
    debugF_overflow_replicate 1 true DEBUG_INFO 2147483648 world_fresh (by decide) (by decide)
      rfl, printed_malloc_script _ _ _, printed_stdout _ _ _, ?_⟩
  · rw [length_vformat_replicate]
    decide
  · rw [vformat_replicate]
    exact printed_replicate_ne DEBUG_INFO world_fresh 2047 2147483648 (by decide)

/-- C17, as stated, fails: in the build without dynamic allocation, at `DEBUG_INFO`, with a text
of 2147483648 bytes (longer than 2047), `debug` returns true having printed the label and the
first 2047 bytes and nothing after them: no truncation warning follows. -/
theorem debug_static_no_warning :
    valid_category DEBUG_INFO ∧ 2047 < (vformat (List.replicate 2147483648 'a') []).length ∧
    ∃ v, debugF 4 false DEBUG_INFO (List.replicate 2147483648 'a') [] world_fresh =
        Result.done true v ∧
      v.stdout = world_fresh.stdout ++
        terminal_line (resolved_tag DEBUG_INFO world_fresh.debug_colors)
          (List.replicate 2047 'a') ∧
      ¬ ∃ post, v.stdout = world_fresh.stdout ++
        terminal_line (resolved_tag DEBUG_INFO world_fresh.debug_colors)
          (List.replicate 2047 'a') ++
        terminal_line (debug_category_text_colored_warn world_fresh.debug_colors)
          msg_truncated ++ post := by
  refine ⟨by decide, ?_, printed DEBUG_INFO (List.replicate 2047 'a') world_fresh,
    debugF_overflow_replicate 2 false DEBUG_INFO 2147483648 world_fresh (by decide) (by decide)
      rfl, printed_stdout _ _ _, ?_⟩
  · rw [length_vformat_replicate]
    decide
  · rintro ⟨post, h⟩
    exact printed_replicate_alone DEBUG_INFO world_fresh 2047 _ _ post h

end Debug
